import Mathlib

/-!
Verification of the spotifagent Spotify synchronization pipeline.

Shallow embedding of:
- the paginated fetch engine `SpotifyUserSession._fetch_pages` and its
  extractors (application/services/spotify.py),
- the double-checked-locking token refresh `_refresh_token` as a cooperative
  interleaving state machine,
- the request executor `_execute_request`,
- the remote client `make_user_api_call` / `refresh_access_token` with the
  tenacity retry policy (infrastructure/adapters/clients/spotify.py),
- the bulk upsert `bulk_item_upsert`
  (infrastructure/adapters/database/repositories/music.py) over a relational
  store model,
- the orchestrator `spotify_sync` / `_purge` / `_sync`
  (application/use_cases/spotify_sync.py).
-/

namespace Spotifagent

/-! ## Data model

The raw Spotify models come from `domain/entities/spotify.py`.
`domain/entities/music.py` (the domain `Artist`/`Track` entities) is imported
by the services but its body is not in the snapshot; those two entities'
fields follow the spec's data model section and carry a
`Modelled from the spec:` marker. -/

/-- Provider page envelope (`SpotifyPage` in domain/entities/spotify.py:177):
an ordered sequence of raw items, the upstream's declared full-collection
size `total` (validated `ge=0`), and the echoed request `limit` (validated
`ge=1`) and `offset` (validated `ge=0`).  `Nat` covers the non-negativity
constraints; `limit ≥ 1` is carried as a hypothesis where needed.  The fetch
loop reads only `items` and `total`. -/
structure SpotifyPage (α : Type) where
  items : List α
  total : Nat
  limit : Nat
  offset : Nat
  deriving Repr, DecidableEq

/-- Raw Spotify artist item (`SpotifyArtist` in domain/entities/spotify.py);
`href` is irrelevant to the claims and omitted. -/
structure SpotifyArtist where
  id : String
  name : String
  popularity : Nat
  genres : List String
  deriving Repr, DecidableEq

/-- Modelled from the spec: domain Artist entity
{provider_id, user_id, name, popularity, genres, is_top, top_position}. -/
structure Artist where
  provider_id : String
  user_id : Nat
  name : String
  popularity : Nat
  genres : List String
  is_top : Bool
  top_position : Nat
  deriving Repr, DecidableEq

/-- Artist reference embedded in a track ({provider_id, name}). -/
structure TrackArtist where
  provider_id : String
  name : String
  deriving Repr, DecidableEq

/-- Modelled from the spec: domain Track entity
{provider_id, user_id, name, popularity, artists, is_top, top_position,
is_saved}; `top_position` is absent for saved/playlist-only tracks. -/
structure Track where
  provider_id : String
  user_id : Nat
  name : String
  popularity : Nat
  artists : List TrackArtist
  is_top : Bool := false
  top_position : Option Nat := none
  is_saved : Bool := false
  deriving Repr, DecidableEq

/-! ## Paginated fetch engine (`SpotifyUserSession._fetch_pages`)

The loop requests the page at the current `offset`, appends the processed
items and stops when `len(items) >= page.total or len(page.items) < limit`,
otherwise continues with `offset += limit`.  The upstream is modelled as a
function from offsets to pages; `fuel` bounds the number of iterations (the
Python loop has no self-imposed bound), and `none` means the loop would still
be running after `fuel` requests. The result carries the accumulated items and
the number of requests issued. -/
def fetchPages {α β : Type} (provider : Nat → SpotifyPage α)
    (pageProcessor : SpotifyPage α → Nat → List β) (limit : Nat) :
    Nat → Nat → List β → Nat → Option (List β × Nat)
  | 0, _, _, _ => none
  | fuel + 1, offset, acc, reqs =>
    let page := provider offset
    let items := acc ++ pageProcessor page offset
    if page.total ≤ items.length ∨ page.items.length < limit then
      some (items, reqs + 1)
    else
      fetchPages provider pageProcessor limit fuel (offset + limit) items (reqs + 1)

/-- An upstream collection `src` served consistently: the page at `offset`
holds the `limit`-bounded slice of `src` starting at `offset`, and `total`
declares the collection size. -/
def honestProvider {α : Type} (src : List α) (limit offset : Nat) : SpotifyPage α :=
  ⟨(src.drop offset).take limit, src.length, limit, offset⟩

/-- The playlist-style extractor (`_extract_playlists`): the page's items
unchanged, ignoring the offset. -/
def extractItems {α : Type} (page : SpotifyPage α) (_ : Nat) : List α :=
  page.items

/-- `SpotifyUserSession._map_top_artist`: raw item to Artist with
`is_top=True` and the given 1-based position. -/
def map_top_artist (userId : Nat) (item : SpotifyArtist) (position : Nat) : Artist :=
  { provider_id := item.id
    user_id := userId
    name := item.name
    popularity := item.popularity
    genres := item.genres
    is_top := true
    top_position := position }

/-- `SpotifyUserSession._extract_top_artists`: enumerate the page's items and
rank each as `offset + index + 1`. -/
def extract_top_artists (userId : Nat) (page : SpotifyPage SpotifyArtist)
    (offset : Nat) : List Artist :=
  page.items.enum.map fun p => map_top_artist userId p.2 (offset + p.1 + 1)

/-! ### Pagination lemmas -/

/-- `1 + ⌊(T - 1) / L⌋` (the request count produced by the loop) equals
`max 1 ⌈T / L⌉` written with floors, for positive `L`. -/
theorem ceil_requests (T L : Nat) (hL : 1 ≤ L) :
    1 + (T - 1) / L = max 1 ((T + L - 1) / L) := by
  rcases Nat.eq_zero_or_pos T with h0 | hpos
  · subst h0
    have h1 : (L - 1) / L = 0 := Nat.div_eq_of_lt (by omega)
    simp [h1]
  · have h2 : T + L - 1 = (T - 1) + L := by omega
    rw [h2, Nat.add_div_right _ (by omega)]
    rw [Nat.max_eq_right (Nat.succ_le_succ (Nat.zero_le _))]
    omega

theorem honest_loop (src : List α) (L : Nat) (hL : 1 ≤ L) :
    ∀ (fuel offset reqs : Nat), offset ≤ src.length → src.length - offset < fuel →
      fetchPages (honestProvider src L) extractItems L fuel offset (src.take offset) reqs
        = some (src, reqs + 1 + (src.length - offset - 1) / L) := by
  intro fuel
  induction fuel with
  | zero => intro offset reqs _ h; omega
  | succ fuel ih =>
    intro offset reqs hoff hfuel
    rw [fetchPages]
    simp only [honestProvider, extractItems]
    rw [← List.take_add]
    rcases le_or_lt src.length (offset + L) with hstop | hcont
    · rw [if_pos]
      · rw [List.take_of_length_le hstop]
        have : (src.length - offset - 1) / L = 0 := by
          apply Nat.div_eq_of_lt; omega
        rw [this]
      · left
        simpa using hstop
    · rw [if_neg]
      · have h1 := ih (offset + L) (reqs + 1) (by omega) (by omega)
        rw [h1]
        have h2 : src.length - offset - 1 = (src.length - (offset + L) - 1) + L := by
          omega
        rw [h2, Nat.add_div_right _ (by omega : 0 < L)]
        generalize (src.length - (offset + L) - 1) / L = q
        simp only [Option.some.injEq, Prod.mk.injEq, true_and]
        omega
      · push_neg
        constructor
        · simpa using hcont
        · simp only [List.length_take, List.length_drop]
          omega

/-- C1 (amended): pagination completeness against a consistent upstream of
total `T = src.length`: the engine returns exactly the `T` items and issues
exactly `max 1 ⌈T / L⌉` requests, with no extra trailing request. -/
theorem fetchPages_pagination_complete (src : List α) (L fuel : Nat)
    (hL : 1 ≤ L) (hfuel : src.length + 1 ≤ fuel) :
    fetchPages (honestProvider src L) extractItems L fuel 0 [] 0
      = some (src, max 1 ((src.length + L - 1) / L)) := by
  have h := honest_loop src L hL fuel 0 0 (Nat.zero_le _) (by omega)
  simp only [List.take_zero, Nat.sub_zero] at h
  rw [h, ← ceil_requests src.length L hL]

/-- C1 counterexample: for a declared total `T = 0` and limit `L = 50` the
engine issues 1 request, not `⌈T / L⌉ = 0` "or fewer": the claimed request
count is violated at the empty collection. -/
theorem fetchPages_zero_total_counterexample :
    fetchPages (honestProvider ([] : List Nat) 50) extractItems 50 1 0 [] 0
      = some ([], 1)
    ∧ (0 + 50 - 1) / 50 = 0 ∧ ¬ (1 ≤ (0 + 50 - 1) / 50) := by
  refine ⟨by decide, by decide, by decide⟩

/-- Closed witness for `fetchPages_pagination_complete`: a 5-item collection
with page limit 2 is returned whole after `⌈5/2⌉ = 3` requests. -/
theorem fetchPages_pagination_complete_witness :
    fetchPages (honestProvider [10, 11, 12, 13, 14] 2) extractItems 2 6 0 [] 0
      = some ([10, 11, 12, 13, 14], max 1 ((5 + 2 - 1) / 2)) :=
  fetchPages_pagination_complete [10, 11, 12, 13, 14] 2 6 (by decide) (by decide)

/-! ## Rank assignment for top lists (C9) -/

/-- Raw artist reference inside a track (`SpotifyTrackArtist`). -/
structure SpotifyTrackArtist where
  id : String
  name : String
  deriving Repr, DecidableEq

/-- Raw Spotify track item (`SpotifyTrack`); `href` omitted. -/
structure SpotifyTrack where
  id : String
  name : String
  popularity : Nat
  artists : List SpotifyTrackArtist
  deriving Repr, DecidableEq

/-- `SpotifyUserSession._map_track`: raw track to domain Track, renaming ids
to provider ids, with the extra attributes passed explicitly. -/
def map_track (userId : Nat) (item : SpotifyTrack) (topFlag : Bool)
    (topPos : Option Nat) (savedFlag : Bool) : Track :=
  { provider_id := item.id
    user_id := userId
    name := item.name
    popularity := item.popularity
    artists := item.artists.map fun a => ⟨a.id, a.name⟩
    is_top := topFlag
    top_position := topPos
    is_saved := savedFlag }

/-- `SpotifyUserSession._map_top_track`. -/
def map_top_track (userId : Nat) (item : SpotifyTrack) (position : Nat) : Track :=
  map_track userId item true (some position) false

/-- `SpotifyUserSession._map_saved_track`. -/
def map_saved_track (userId : Nat) (item : SpotifyTrack) : Track :=
  map_track userId item false none true

/-- `SpotifyUserSession._extract_top_tracks`. -/
def extract_top_tracks (userId : Nat) (page : SpotifyPage SpotifyTrack)
    (offset : Nat) : List Track :=
  page.items.enum.map fun p => map_top_track userId p.2 (offset + p.1 + 1)

theorem enumFrom_map_position {α : Type} (l : List α) :
    ∀ n off : Nat, (l.enumFrom n).map (fun p => off + p.1 + 1)
      = List.range' (off + n + 1) l.length := by
  induction l with
  | nil => intro n off; rfl
  | cons a as ih =>
    intro n off
    simp only [List.enumFrom, List.map_cons, List.length_cons, List.range'_succ]
    rw [ih (n + 1) off]
    have h : off + (n + 1) + 1 = off + n + 1 + 1 := by omega
    rw [h]

theorem extract_top_artists_positions (uid : Nat) (pg : SpotifyPage SpotifyArtist)
    (off : Nat) :
    (extract_top_artists uid pg off).map Artist.top_position
      = (List.range' (off + 1) pg.items.length).map id := by
  simp only [extract_top_artists, List.map_map, List.map_id]
  have h := enumFrom_map_position pg.items 0 off
  simpa [List.enum, Function.comp, map_top_artist] using h

theorem extract_top_tracks_positions (uid : Nat) (pg : SpotifyPage SpotifyTrack)
    (off : Nat) :
    (extract_top_tracks uid pg off).map Track.top_position
      = (List.range' (off + 1) pg.items.length).map some := by
  simp only [extract_top_tracks, List.map_map]
  have h := enumFrom_map_position pg.items 0 off
  have h2 : (List.range' (off + 1) pg.items.length).map some
      = pg.items.enum.map ((fun n => some n) ∘ (fun p : Nat × SpotifyTrack => off + p.1 + 1)) := by
    rw [← List.map_map]
    simp only [List.enum]
    rw [h]
  rw [h2]
  rfl

/-- For a processor that ranks the page's items `offset + index + 1` (image
under `g`), running the fetch loop against a consistent upstream yields
positions exactly `1..N` (image under `g`), `N` the full collection size. -/
theorem honest_ranked_loop {α β γ : Type} (proc : SpotifyPage α → Nat → List β)
    (posOf : β → γ) (g : Nat → γ)
    (hproc : ∀ (pg : SpotifyPage α) (off : Nat),
      (proc pg off).map posOf = (List.range' (off + 1) pg.items.length).map g)
    (src : List α) (L : Nat) (hL : 1 ≤ L) :
    ∀ (fuel offset reqs : Nat) (acc : List β),
      offset ≤ src.length → src.length - offset < fuel →
      acc.map posOf = (List.range' 1 offset).map g →
      ∃ res reqs2,
        fetchPages (honestProvider src L) proc L fuel offset acc reqs
            = some (res, reqs2)
          ∧ res.map posOf = (List.range' 1 src.length).map g := by
  intro fuel
  induction fuel with
  | zero => intro offset reqs acc _ h _; omega
  | succ fuel ih =>
    intro offset reqs acc hoff hfuel hacc
    rw [fetchPages]
    have hlen : ((honestProvider src L offset).items).length
        = min L (src.length - offset) := by
      simp [honestProvider]
    have hnew := hproc (honestProvider src L offset) offset
    have happ : (acc ++ proc (honestProvider src L offset) offset).map posOf
        = (List.range' 1 (offset + min L (src.length - offset))).map g := by
      rw [List.map_append, hacc, hnew, hlen, ← List.map_append]
      have hst : offset + 1 = 1 + 1 * offset := by omega
      rw [hst, List.range'_append,
        Nat.add_comm (min L (src.length - offset)) offset]
    have hlen2 : (acc ++ proc (honestProvider src L offset) offset).length
        = offset + min L (src.length - offset) := by
      have h := congrArg List.length happ
      simpa using h
    have htot : (honestProvider src L offset).total = src.length := rfl
    rcases le_or_lt src.length (offset + L) with hstop | hcont
    · rw [if_pos]
      · refine ⟨_, reqs + 1, rfl, ?_⟩
        rw [happ]
        have h : offset + min L (src.length - offset) = src.length := by omega
        rw [h]
      · left
        rw [htot, hlen2]
        omega
    · rw [if_neg]
      · refine ih (offset + L) (reqs + 1) _ (by omega) (by omega) ?_
        rw [happ]
        have h : offset + min L (src.length - offset) = offset + L := by omega
        rw [h]
      · push_neg
        constructor
        · rw [htot, hlen2]
          omega
        · rw [hlen]
          omega

/-- C9: against a consistent upstream collection, a completed top-artists or
top-tracks fetch of `N` entities carries `top_position` values exactly
`1..N` in fetch order, each rank being `page offset + in-page index + 1`. -/
theorem top_fetch_rank_monotonic (uid : Nat) (srcA : List SpotifyArtist)
    (srcT : List SpotifyTrack) (L fuel : Nat) (hL : 1 ≤ L)
    (hfA : srcA.length + 1 ≤ fuel) (hfT : srcT.length + 1 ≤ fuel) :
    (∃ res reqs,
      fetchPages (honestProvider srcA L) (extract_top_artists uid) L fuel 0 [] 0
          = some (res, reqs)
        ∧ res.map Artist.top_position = List.range' 1 srcA.length
        ∧ res.length = srcA.length)
    ∧ (∃ res reqs,
      fetchPages (honestProvider srcT L) (extract_top_tracks uid) L fuel 0 [] 0
          = some (res, reqs)
        ∧ res.map Track.top_position = (List.range' 1 srcT.length).map some
        ∧ res.length = srcT.length) := by
  constructor
  · obtain ⟨res, reqs2, heq, hpos⟩ :=
      honest_ranked_loop (extract_top_artists uid) Artist.top_position id
        (extract_top_artists_positions uid) srcA L hL fuel 0 0 []
        (Nat.zero_le _) (by omega) (by simp)
    refine ⟨res, reqs2, heq, ?_, ?_⟩
    · simpa using hpos
    · have h := congrArg List.length hpos
      simpa using h
  · obtain ⟨res, reqs2, heq, hpos⟩ :=
      honest_ranked_loop (extract_top_tracks uid) Track.top_position some
        (extract_top_tracks_positions uid) srcT L hL fuel 0 0 []
        (Nat.zero_le _) (by omega) (by simp)
    refine ⟨res, reqs2, heq, hpos, ?_⟩
    · have h := congrArg List.length hpos
      simpa using h

/-- Closed witness for `top_fetch_rank_monotonic` on a 3-artist, 2-track
collection with page limit 2. -/
theorem top_fetch_rank_monotonic_witness :
    (∃ res reqs,
      fetchPages
          (honestProvider [⟨"a1", "A", 5, []⟩, ⟨"a2", "B", 6, []⟩,
            (⟨"a3", "C", 7, []⟩ : SpotifyArtist)] 2)
          (extract_top_artists 9) 2 4 0 [] 0 = some (res, reqs)
        ∧ res.map Artist.top_position = List.range' 1 3
        ∧ res.length = 3)
    ∧ (∃ res reqs,
      fetchPages
          (honestProvider [⟨"t1", "T", 5, []⟩, (⟨"t2", "U", 6, []⟩ : SpotifyTrack)] 2)
          (extract_top_tracks 9) 2 4 0 [] 0 = some (res, reqs)
        ∧ res.map Track.top_position = (List.range' 1 2).map some
        ∧ res.length = 2) :=
  top_fetch_rank_monotonic 9 _ _ 2 4 (by decide) (by decide) (by decide)

/-! ## Bulk upsert (`bulk_item_upsert`, C3)

The repository function chunks `items` by `batch_size`
(`range(0, total, batch_size)` slicing) and executes, per chunk, a single
`INSERT .. ON CONFLICT (user_id, provider_id) DO UPDATE SET <all non-key
fields> RETURNING id, (xmax = 0) AS was_created`, collecting all returned ids
and summing the `was_created` flags. The relational store is modelled
explicitly; all non-key columns are abstracted into one `data` field. -/

/-- A stored row: surrogate id, uniqueness key (user_id, provider_id), and
the non-key column payload. -/
structure DbRow (α : Type) where
  id : Nat
  user_id : Nat
  provider_id : String
  data : α
  deriving Repr, DecidableEq

/-- The store: rows plus a fresh-surrogate-id counter. -/
structure Db (α : Type) where
  rows : List (DbRow α)
  nextId : Nat
  deriving Repr, DecidableEq

/-- An entity to upsert: the key columns and the non-key payload. -/
structure MusicEntity (α : Type) where
  user_id : Nat
  provider_id : String
  data : α
  deriving Repr, DecidableEq

def entityKey {α : Type} (it : MusicEntity α) : Nat × String :=
  (it.user_id, it.provider_id)

def keyMatches {α : Type} (uid : Nat) (pid : String) (r : DbRow α) : Bool :=
  r.user_id == uid && r.provider_id == pid

/-- Whether the store already holds a row with this (user_id, provider_id). -/
def hasKey {α : Type} (db : Db α) (uid : Nat) (pid : String) : Bool :=
  db.rows.any (keyMatches uid pid)

/-- One upserted row: on key conflict every non-key field is overwritten and
the existing surrogate id is returned with `was_created = false`
(`xmax ≠ 0`); otherwise a fresh row is appended and its new id returned with
`was_created = true` (`xmax = 0`). -/
def upsertOne {α : Type} (db : Db α) (it : MusicEntity α) : Db α × Nat × Bool :=
  match db.rows.find? (keyMatches it.user_id it.provider_id) with
  | some r =>
    ({ db with
        rows := db.rows.map fun row =>
          if keyMatches it.user_id it.provider_id row then
            { row with data := it.data }
          else row },
      r.id, false)
  | none =>
    ({ rows := db.rows ++ [⟨db.nextId, it.user_id, it.provider_id, it.data⟩],
       nextId := db.nextId + 1 },
      db.nextId, true)

/-- Rows of one statement applied in order, aggregating
(store, returned ids, created count). -/
def upsertAll {α : Type} (db : Db α) : List (MusicEntity α) → Db α × List Nat × Nat
  | [] => (db, [], 0)
  | it :: rest =>
    ((upsertAll (upsertOne db it).1 rest).1,
     (upsertOne db it).2.1 :: (upsertAll (upsertOne db it).1 rest).2.1,
     (if (upsertOne db it).2.2 then 1 else 0) + (upsertAll (upsertOne db it).1 rest).2.2)

/-- The `items_dicts[offset : offset + batch_size]` slices produced by the
`for offset in range(0, total, batch_size)` loop (for `batch_size ≥ 1`). -/
def chunksOf {γ : Type} (bs : Nat) : List γ → List (List γ)
  | [] => []
  | a :: l => (a :: l.take (bs - 1)) :: chunksOf bs (l.drop (bs - 1))
termination_by l => l.length
decreasing_by simp only [List.length_drop, List.length_cons]; omega

/-- Chunk loop of `bulk_item_upsert`: extends `item_ids` with each chunk's
returned ids and adds each chunk's `was_created` sum to `created_count`. -/
def bulkGo {α : Type} (db : Db α) : List (List (MusicEntity α)) → Db α × List Nat × Nat
  | [] => (db, [], 0)
  | c :: cs =>
    ((bulkGo (upsertAll db c).1 cs).1,
     (upsertAll db c).2.1 ++ (bulkGo (upsertAll db c).1 cs).2.1,
     (upsertAll db c).2.2 + (bulkGo (upsertAll db c).1 cs).2.2)

/-- `bulk_item_upsert(session, sql_model, items, batch_size)`. -/
def bulk_item_upsert {α : Type} (db : Db α) (items : List (MusicEntity α))
    (batch_size : Nat) : Db α × List Nat × Nat :=
  bulkGo db (chunksOf batch_size items)

theorem chunksOf_flatten {γ : Type} (bs : Nat) :
    ∀ (n : Nat) (l : List γ), l.length ≤ n → (chunksOf bs l).flatten = l := by
  intro n
  induction n with
  | zero =>
    intro l h
    match l with
    | [] => simp [chunksOf]
  | succ n ih =>
    intro l h
    match l with
    | [] => simp [chunksOf]
    | a :: l =>
      rw [chunksOf]
      rw [List.flatten_cons]
      rw [ih (l.drop (bs - 1)) (by simp only [List.length_drop]; simp at h; omega)]
      rw [List.cons_append, List.take_append_drop]

theorem upsertAll_append {α : Type} (l1 l2 : List (MusicEntity α)) :
    ∀ db : Db α,
      upsertAll db (l1 ++ l2)
        = ((upsertAll (upsertAll db l1).1 l2).1,
           (upsertAll db l1).2.1 ++ (upsertAll (upsertAll db l1).1 l2).2.1,
           (upsertAll db l1).2.2 + (upsertAll (upsertAll db l1).1 l2).2.2) := by
  induction l1 with
  | nil => intro db; simp [upsertAll]
  | cons it rest ih =>
    intro db
    simp only [List.cons_append, upsertAll, List.append_eq, ih]
    simp only [Prod.mk.injEq, List.cons_append, true_and, and_true]
    omega

theorem bulkGo_flatten {α : Type} (cs : List (List (MusicEntity α))) :
    ∀ db : Db α, bulkGo db cs = upsertAll db cs.flatten := by
  induction cs with
  | nil => intro db; rfl
  | cons c cs ih =>
    intro db
    rw [List.flatten_cons, upsertAll_append]
    simp only [bulkGo, ih]

theorem hasKey_upsertOne {α : Type} (db : Db α) (it : MusicEntity α)
    (uid : Nat) (pid : String) :
    hasKey (upsertOne db it).1 uid pid
      = (hasKey db uid pid || (it.user_id == uid && it.provider_id == pid)) := by
  unfold upsertOne
  split
  · rename_i r hf
    have hmem : r ∈ db.rows := List.mem_of_find?_eq_some hf
    have hpr : keyMatches it.user_id it.provider_id r = true := List.find?_some hf
    simp only [hasKey, List.any_map]
    have hfun : (keyMatches uid pid ∘ fun row : DbRow α =>
        if keyMatches it.user_id it.provider_id row then
          { row with data := it.data }
        else row) = keyMatches uid pid := by
      funext row
      simp only [Function.comp]
      split <;> simp [keyMatches]
    rw [hfun]
    cases hX : (it.user_id == uid && it.provider_id == pid) with
    | false => rw [Bool.or_false]
    | true =>
      have hdb : db.rows.any (keyMatches uid pid) = true := by
        apply List.any_eq_true.mpr
        refine ⟨r, hmem, ?_⟩
        simp only [keyMatches, Bool.and_eq_true, beq_iff_eq] at hpr hX ⊢
        exact ⟨hpr.1.trans hX.1, hpr.2.trans hX.2⟩
      rw [hdb, Bool.true_or]
  · simp only [hasKey, List.any_append, List.any_cons, List.any_nil,
      Bool.or_false, keyMatches]

theorem upsertOne_created {α : Type} (db : Db α) (it : MusicEntity α) :
    (upsertOne db it).2.2 = !(hasKey db it.user_id it.provider_id) := by
  unfold upsertOne
  split
  · rename_i r hf
    have hdb : hasKey db it.user_id it.provider_id = true :=
      List.any_eq_true.mpr ⟨r, List.mem_of_find?_eq_some hf, List.find?_some hf⟩
    rw [hdb]
    rfl
  · rename_i hf
    have hdb : hasKey db it.user_id it.provider_id = false := by
      rw [hasKey, List.any_eq_false]
      exact List.find?_eq_none.mp hf
    rw [hdb]
    rfl

theorem upsertAll_count {α : Type} :
    ∀ (items : List (MusicEntity α)) (db : Db α),
      (items.map entityKey).Nodup →
      (upsertAll db items).2.1.length = items.length
      ∧ (upsertAll db items).2.2
          = items.countP (fun r => !(hasKey db r.user_id r.provider_id)) := by
  intro items
  induction items with
  | nil => intro db _; exact ⟨rfl, rfl⟩
  | cons it rest ih =>
    intro db hnd
    rw [List.map_cons, List.nodup_cons] at hnd
    obtain ⟨hkey, hnd2⟩ := hnd
    obtain ⟨ih1, ih2⟩ := ih (upsertOne db it).1 hnd2
    constructor
    · simp only [upsertAll, List.length_cons, ih1]
    · simp only [upsertAll, List.countP_cons]
      rw [ih2]
      have hcong :
          rest.countP (fun r => !(hasKey (upsertOne db it).1 r.user_id r.provider_id))
            = rest.countP (fun r => !(hasKey db r.user_id r.provider_id)) := by
        apply List.countP_congr
        intro r hr
        have hne : ¬(it.user_id = r.user_id ∧ it.provider_id = r.provider_id) := by
          intro hcontra
          apply hkey
          have hkeq : entityKey r = entityKey it := by
            simp only [entityKey]
            rw [hcontra.1, hcontra.2]
          rw [← hkeq]
          exact List.mem_map_of_mem entityKey hr
        have hX : (it.user_id == r.user_id && it.provider_id == r.provider_id)
            = false := by
          cases h1 : it.user_id == r.user_id <;>
            cases h2 : it.provider_id == r.provider_id <;>
            simp_all [beq_iff_eq]
        rw [hasKey_upsertOne, hX, Bool.or_false]
      rw [hcong, upsertOne_created]
      cases hh : hasKey db it.user_id it.provider_id <;> simp [hh] <;> omega

theorem countP_not_eq {γ : Type} (p : γ → Bool) (l : List γ) :
    l.countP (fun a => !(p a)) = l.length - l.countP p := by
  induction l with
  | nil => rfl
  | cons a l ih =>
    rw [List.countP_cons, List.countP_cons, ih, List.length_cons]
    have hle := List.countP_le_length p (l := l)
    cases h : p a <;> simp [h] <;> omega

/-- C3: for a batch of `N` entities with pairwise-distinct
(user_id, provider_id) keys of which `M` match an existing stored row,
`bulk_item_upsert` returns `N` ids and `created_count = N - M`, for every
positive batch size (below or above `N`), the created/updated distinction
being exact per row. -/
theorem bulk_upsert_accounting {α : Type} (db : Db α)
    (items : List (MusicEntity α)) (batch_size : Nat)
    (hbs : 1 ≤ batch_size) (hnd : (items.map entityKey).Nodup) :
    (bulk_item_upsert db items batch_size).2.1.length = items.length
    ∧ (bulk_item_upsert db items batch_size).2.2
        = items.length
          - items.countP (fun r => hasKey db r.user_id r.provider_id) := by
  unfold bulk_item_upsert
  rw [bulkGo_flatten, chunksOf_flatten batch_size items.length items le_rfl]
  obtain ⟨h1, h2⟩ := upsertAll_count items db hnd
  exact ⟨h1, by rw [h2, countP_not_eq]⟩

/-- Closed witness for `bulk_upsert_accounting`: 3 entities, 1 matching an
existing row, batch size 2: 3 ids and `created_count = 2`. -/
theorem bulk_upsert_accounting_witness :
    (bulk_item_upsert (⟨[⟨100, 1, "a", 0⟩], 101⟩ : Db Nat)
        [⟨1, "a", 7⟩, ⟨1, "b", 8⟩, ⟨2, "a", 9⟩] 2).2.1.length
      = ([⟨1, "a", 7⟩, ⟨1, "b", 8⟩, (⟨2, "a", 9⟩ : MusicEntity Nat)]).length
    ∧ (bulk_item_upsert (⟨[⟨100, 1, "a", 0⟩], 101⟩ : Db Nat)
        [⟨1, "a", 7⟩, ⟨1, "b", 8⟩, ⟨2, "a", 9⟩] 2).2.2
      = ([⟨1, "a", 7⟩, ⟨1, "b", 8⟩, (⟨2, "a", 9⟩ : MusicEntity Nat)]).length
        - ([⟨1, "a", 7⟩, ⟨1, "b", 8⟩, (⟨2, "a", 9⟩ : MusicEntity Nat)]).countP
            (fun r => hasKey (⟨[⟨100, 1, "a", 0⟩], 101⟩ : Db Nat)
              r.user_id r.provider_id) :=
  bulk_upsert_accounting ⟨[⟨100, 1, "a", 0⟩], 101⟩
    [⟨1, "a", 7⟩, ⟨1, "b", 8⟩, ⟨2, "a", 9⟩] 2 (by decide) (by decide)

/-! ## Sync orchestration (`spotify_sync`, C4 and C5)

`spotify_sync(user, factory, artist_repo, track_repo, config)` purges and/or
fetches-and-upserts each category, isolating failures per phase.  The
collaborators (repositories and the session's fetchers) are modelled by their
outcomes; entities are abstracted to `Nat`, and the page_limit / time_range /
batch_size knobs only parameterize collaborators so they do not appear. -/

structure SyncReport where
  purge_artist : Nat := 0
  purge_track : Nat := 0
  artist_created : Nat := 0
  artist_updated : Nat := 0
  track_created : Nat := 0
  track_updated : Nat := 0
  errors : List String := []
  deriving Repr, DecidableEq

def SyncReport.has_errors (r : SyncReport) : Bool :=
  r.errors.length > 0

structure SyncConfig where
  purge : Bool := false
  purge_artist_top : Bool := false
  purge_track_top : Bool := false
  purge_track_saved : Bool := false
  purge_track_playlist : Bool := false
  sync : Bool := false
  sync_artist_top : Bool := false
  sync_track_top : Bool := false
  sync_track_saved : Bool := false
  sync_track_playlist : Bool := false
  deriving Repr, DecidableEq

def SyncConfig.has_purge (c : SyncConfig) : Bool :=
  c.purge || c.purge_artist_top || c.purge_track_top || c.purge_track_saved
    || c.purge_track_playlist

/-- Outcome of one sync category's collaborators: the session fetch (which
may raise) and the repository bulk_upsert of the fetched items (which may
raise, else returns (ids, created_count)). -/
structure SyncOutcome where
  fetch : Except Unit (List Nat)
  upsert : List Nat → Except Unit (List Nat × Nat)

/-- All collaborator behaviour a sync run can observe: the two purge
callbacks, whether the user has a linked Spotify account (the session factory
raises otherwise), and the four categories' fetch/upsert outcomes. -/
structure SyncCollabs where
  purgeArtists : Except Unit Nat
  purgeTracks : Except Unit Nat
  hasAccount : Bool
  topArtists : SyncOutcome
  topTracks : SyncOutcome
  savedTracks : SyncOutcome
  playlistTracks : SyncOutcome

/-- `_purge` instantiated at the `purge_artist` report field. -/
def purge_artists_phase (report : SyncReport) (entity_name : String)
    (outcome : Except Unit Nat) : SyncReport :=
  match outcome with
  | .error _ =>
    { report with errors := report.errors
        ++ [s!"An error occurred while purging your {entity_name}."] }
  | .ok count => { report with purge_artist := count }

/-- `_purge` instantiated at the `purge_track` report field. -/
def purge_tracks_phase (report : SyncReport) (entity_name : String)
    (outcome : Except Unit Nat) : SyncReport :=
  match outcome with
  | .error _ =>
    { report with errors := report.errors
        ++ [s!"An error occurred while purging your {entity_name}."] }
  | .ok count => { report with purge_track := count }

/-- `_sync` instantiated at the artist_created/artist_updated fields: fetch,
then upsert, appending the step-specific message on the first failure and
otherwise accumulating created and `len(ids) - created`. -/
def sync_artists_phase (report : SyncReport) (entity_name : String)
    (o : SyncOutcome) : SyncReport :=
  match o.fetch with
  | .error _ =>
    { report with errors := report.errors
        ++ [s!"An error occurred while fetching Spotify {entity_name}."] }
  | .ok items =>
    match o.upsert items with
    | .error _ =>
      { report with errors := report.errors
          ++ [s!"An error occurred while saving Spotify {entity_name}."] }
    | .ok (ids, created) =>
      { report with
          artist_created := report.artist_created + created
          artist_updated := report.artist_updated + (ids.length - created) }

/-- `_sync` instantiated at the track_created/track_updated fields. -/
def sync_tracks_phase (report : SyncReport) (entity_name : String)
    (o : SyncOutcome) : SyncReport :=
  match o.fetch with
  | .error _ =>
    { report with errors := report.errors
        ++ [s!"An error occurred while fetching Spotify {entity_name}."] }
  | .ok items =>
    match o.upsert items with
    | .error _ =>
      { report with errors := report.errors
          ++ [s!"An error occurred while saving Spotify {entity_name}."] }
    | .ok (ids, created) =>
      { report with
          track_created := report.track_created + created
          track_updated := report.track_updated + (ids.length - created) }

/-- Gate of the artists purge phase: `config.purge or config.purge_artist_top`. -/
def artistPurgeGate (config : SyncConfig) : Bool :=
  config.purge || config.purge_artist_top

/-- Gate of the tracks purge phase. -/
def trackPurgeGate (config : SyncConfig) : Bool :=
  config.purge || config.purge_track_top || config.purge_track_saved
    || config.purge_track_playlist

/-- The purge block of `spotify_sync`. -/
def purge_stage (c : SyncCollabs) (config : SyncConfig)
    (report : SyncReport) : SyncReport :=
  let report :=
    if artistPurgeGate config then purge_artists_phase report "artists" c.purgeArtists
    else report
  if trackPurgeGate config then purge_tracks_phase report "tracks" c.purgeTracks
  else report

/-- The session-construction plus four-category sync block of
`spotify_sync`. -/
def sync_stage (c : SyncCollabs) (config : SyncConfig)
    (report : SyncReport) : SyncReport :=
  if !c.hasAccount then
    { report with errors := ["You must connect your Spotify account first."] }
  else
    let report :=
      if config.sync || config.sync_artist_top then
        sync_artists_phase report "top artists" c.topArtists
      else report
    let report :=
      if config.sync || config.sync_track_top then
        sync_tracks_phase report "top tracks" c.topTracks
      else report
    let report :=
      if config.sync || config.sync_track_saved then
        sync_tracks_phase report "saved tracks" c.savedTracks
      else report
    if config.sync || config.sync_track_playlist then
      sync_tracks_phase report "playlist tracks" c.playlistTracks
    else report

/-- `spotify_sync`: run the purge block when any purge flag is set; return
immediately if it reported errors; otherwise construct the session (failing
with a single account message) and run the four sync phases in fixed order. -/
def spotify_sync (c : SyncCollabs) (config : SyncConfig) : SyncReport :=
  let report : SyncReport := {}
  let report := if config.has_purge then purge_stage c config report else report
  if config.has_purge && report.has_errors then report
  else sync_stage c config report

/-! ### Outcome characterizations -/

def isError {δ : Type} : Except Unit δ → Bool
  | .error _ => true
  | .ok _ => false

def exceptCount : Except Unit Nat → Nat
  | .error _ => 0
  | .ok n => n

/-- created_count contributed by a category (0 on any failure). -/
def outcomeCreated (o : SyncOutcome) : Nat :=
  match o.fetch with
  | .error _ => 0
  | .ok items =>
    match o.upsert items with
    | .error _ => 0
    | .ok (_, created) => created

/-- updated count (`len(ids) - created`) contributed by a category. -/
def outcomeUpdated (o : SyncOutcome) : Nat :=
  match o.fetch with
  | .error _ => 0
  | .ok items =>
    match o.upsert items with
    | .error _ => 0
    | .ok (ids, created) => ids.length - created

/-- Error messages contributed by a category: the fetch message, else the
save message, else none. -/
def outcomeErrors (entity_name : String) (o : SyncOutcome) : List String :=
  match o.fetch with
  | .error _ => [s!"An error occurred while fetching Spotify {entity_name}."]
  | .ok items =>
    match o.upsert items with
    | .error _ => [s!"An error occurred while saving Spotify {entity_name}."]
    | .ok _ => []

/-- Whether both steps of a category succeed. -/
def phaseOk (o : SyncOutcome) : Bool :=
  match o.fetch with
  | .error _ => false
  | .ok items =>
    match o.upsert items with
    | .error _ => false
    | .ok _ => true

def contribIf (b : Bool) (n : Nat) : Nat := if b then n else 0

def errorsIf (b : Bool) (l : List String) : List String := if b then l else []

theorem sync_artists_phase_eq (report : SyncReport) (name : String)
    (o : SyncOutcome) :
    sync_artists_phase report name o
      = { report with
          artist_created := report.artist_created + outcomeCreated o
          artist_updated := report.artist_updated + outcomeUpdated o
          errors := report.errors ++ outcomeErrors name o } := by
  obtain ⟨f, u⟩ := o
  cases f with
  | error e =>
    simp [sync_artists_phase, outcomeCreated, outcomeUpdated, outcomeErrors]
  | ok items =>
    cases hu : u items with
    | error e =>
      simp [sync_artists_phase, outcomeCreated, outcomeUpdated, outcomeErrors, hu]
    | ok pr =>
      obtain ⟨ids, created⟩ := pr
      simp [sync_artists_phase, outcomeCreated, outcomeUpdated, outcomeErrors, hu]

theorem sync_tracks_phase_eq (report : SyncReport) (name : String)
    (o : SyncOutcome) :
    sync_tracks_phase report name o
      = { report with
          track_created := report.track_created + outcomeCreated o
          track_updated := report.track_updated + outcomeUpdated o
          errors := report.errors ++ outcomeErrors name o } := by
  obtain ⟨f, u⟩ := o
  cases f with
  | error e =>
    simp [sync_tracks_phase, outcomeCreated, outcomeUpdated, outcomeErrors]
  | ok items =>
    cases hu : u items with
    | error e =>
      simp [sync_tracks_phase, outcomeCreated, outcomeUpdated, outcomeErrors, hu]
    | ok pr =>
      obtain ⟨ids, created⟩ := pr
      simp [sync_tracks_phase, outcomeCreated, outcomeUpdated, outcomeErrors, hu]

theorem has_purge_gates (config : SyncConfig) :
    config.has_purge = (artistPurgeGate config || trackPurgeGate config) := by
  obtain ⟨p, pa, pt, ps, pp, _, _, _, _, _⟩ := config
  simp only [SyncConfig.has_purge, artistPurgeGate, trackPurgeGate]
  cases p <;> cases pa <;> cases pt <;> cases ps <;> cases pp <;> rfl

/-- A no-purge run with a linked account decomposes into the four per-category
contributions gated by their flags. -/
theorem spotify_sync_no_purge (c : SyncCollabs) (f1 f2 f3 f4 : Bool)
    (hacc : c.hasAccount = true) :
    spotify_sync c
        { sync_artist_top := f1, sync_track_top := f2,
          sync_track_saved := f3, sync_track_playlist := f4 }
      = { purge_artist := 0
          purge_track := 0
          artist_created := contribIf f1 (outcomeCreated c.topArtists)
          artist_updated := contribIf f1 (outcomeUpdated c.topArtists)
          track_created := contribIf f2 (outcomeCreated c.topTracks)
            + contribIf f3 (outcomeCreated c.savedTracks)
            + contribIf f4 (outcomeCreated c.playlistTracks)
          track_updated := contribIf f2 (outcomeUpdated c.topTracks)
            + contribIf f3 (outcomeUpdated c.savedTracks)
            + contribIf f4 (outcomeUpdated c.playlistTracks)
          errors := errorsIf f1 (outcomeErrors "top artists" c.topArtists)
            ++ errorsIf f2 (outcomeErrors "top tracks" c.topTracks)
            ++ errorsIf f3 (outcomeErrors "saved tracks" c.savedTracks)
            ++ errorsIf f4 (outcomeErrors "playlist tracks" c.playlistTracks) } := by
  unfold spotify_sync sync_stage
  simp only [SyncConfig.has_purge, Bool.or_false, Bool.false_or, Bool.false_and,
    if_neg (Bool.false_ne_true), hacc, Bool.not_true, contribIf, errorsIf]
  cases f1 <;> cases f2 <;> cases f3 <;> cases f4 <;>
    simp [sync_artists_phase_eq, sync_tracks_phase_eq]

theorem phaseOk_false_spec (o : SyncOutcome) (h : phaseOk o = false) :
    outcomeCreated o = 0 ∧ outcomeUpdated o = 0
      ∧ ∀ name, (outcomeErrors name o).length = 1 := by
  obtain ⟨f, u⟩ := o
  cases f with
  | error e => exact ⟨rfl, rfl, fun name => rfl⟩
  | ok items =>
    cases hu : u items with
    | error e =>
      simp [outcomeCreated, outcomeUpdated, outcomeErrors, hu]
    | ok pr =>
      simp [phaseOk, hu] at h

theorem phaseOk_true_errors (o : SyncOutcome) (h : phaseOk o = true)
    (name : String) : outcomeErrors name o = [] := by
  obtain ⟨f, u⟩ := o
  cases f with
  | error e => simp [phaseOk] at h
  | ok items =>
    cases hu : u items with
    | error e => simp [phaseOk, hu] at h
    | ok pr => simp [outcomeErrors, hu]

theorem errorsIf_of_ok (b : Bool) (name : String) (o : SyncOutcome)
    (h : b = true → phaseOk o = true) :
    errorsIf b (outcomeErrors name o) = [] := by
  by_cases hb : b = true
  · simp [errorsIf, hb, phaseOk_true_errors o (h hb)]
  · rw [Bool.not_eq_true] at hb
    simp [errorsIf, hb]

/-- The four sync categories of a run, in orchestrator order. -/
inductive SyncCategory
  | topArtists
  | topTracks
  | savedTracks
  | playlistTracks
  deriving Repr, DecidableEq

def categoryOutcome (c : SyncCollabs) : SyncCategory → SyncOutcome
  | .topArtists => c.topArtists
  | .topTracks => c.topTracks
  | .savedTracks => c.savedTracks
  | .playlistTracks => c.playlistTracks

def categoryName : SyncCategory → String
  | .topArtists => "top artists"
  | .topTracks => "top tracks"
  | .savedTracks => "saved tracks"
  | .playlistTracks => "playlist tracks"

def categoryFlag (f1 f2 f3 f4 : Bool) : SyncCategory → Bool
  | .topArtists => f1
  | .topTracks => f2
  | .savedTracks => f3
  | .playlistTracks => f4

/-- C4: in a no-purge run with a linked account where the one enabled
category `k` fails (at fetch or upsert) and every other enabled category
succeeds, the report carries exactly the one message of `k`'s failing step,
`k` contributes zero created/updated, and each count field accumulates
exactly the enabled successful categories' contributions. -/
theorem sync_phase_isolation (c : SyncCollabs) (f1 f2 f3 f4 : Bool)
    (k : SyncCategory) (hacc : c.hasAccount = true)
    (hflag : categoryFlag f1 f2 f3 f4 k = true)
    (hfail : phaseOk (categoryOutcome c k) = false)
    (hok : ∀ j : SyncCategory, j ≠ k → categoryFlag f1 f2 f3 f4 j = true →
      phaseOk (categoryOutcome c j) = true) :
    (spotify_sync c
        { sync_artist_top := f1, sync_track_top := f2,
          sync_track_saved := f3, sync_track_playlist := f4 }).errors
      = outcomeErrors (categoryName k) (categoryOutcome c k)
    ∧ (outcomeErrors (categoryName k) (categoryOutcome c k)).length = 1
    ∧ outcomeCreated (categoryOutcome c k) = 0
    ∧ outcomeUpdated (categoryOutcome c k) = 0
    ∧ (spotify_sync c
        { sync_artist_top := f1, sync_track_top := f2,
          sync_track_saved := f3, sync_track_playlist := f4 }).artist_created
      = contribIf f1 (outcomeCreated c.topArtists)
    ∧ (spotify_sync c
        { sync_artist_top := f1, sync_track_top := f2,
          sync_track_saved := f3, sync_track_playlist := f4 }).artist_updated
      = contribIf f1 (outcomeUpdated c.topArtists)
    ∧ (spotify_sync c
        { sync_artist_top := f1, sync_track_top := f2,
          sync_track_saved := f3, sync_track_playlist := f4 }).track_created
      = contribIf f2 (outcomeCreated c.topTracks)
        + contribIf f3 (outcomeCreated c.savedTracks)
        + contribIf f4 (outcomeCreated c.playlistTracks)
    ∧ (spotify_sync c
        { sync_artist_top := f1, sync_track_top := f2,
          sync_track_saved := f3, sync_track_playlist := f4 }).track_updated
      = contribIf f2 (outcomeUpdated c.topTracks)
        + contribIf f3 (outcomeUpdated c.savedTracks)
        + contribIf f4 (outcomeUpdated c.playlistTracks) := by
  obtain ⟨hz1, hz2, hz3⟩ := phaseOk_false_spec _ hfail
  rw [spotify_sync_no_purge c f1 f2 f3 f4 hacc]
  refine ⟨?_, hz3 _, hz1, hz2, rfl, rfl, rfl, rfl⟩
  show errorsIf f1 (outcomeErrors "top artists" c.topArtists)
      ++ errorsIf f2 (outcomeErrors "top tracks" c.topTracks)
      ++ errorsIf f3 (outcomeErrors "saved tracks" c.savedTracks)
      ++ errorsIf f4 (outcomeErrors "playlist tracks" c.playlistTracks)
    = outcomeErrors (categoryName k) (categoryOutcome c k)
  cases k with
  | topArtists =>
    have h2 : f2 = true → phaseOk c.topTracks = true :=
      fun h => hok .topTracks (by decide) h
    have h3 : f3 = true → phaseOk c.savedTracks = true :=
      fun h => hok .savedTracks (by decide) h
    have h4 : f4 = true → phaseOk c.playlistTracks = true :=
      fun h => hok .playlistTracks (by decide) h
    rw [errorsIf_of_ok f2 _ _ h2, errorsIf_of_ok f3 _ _ h3, errorsIf_of_ok f4 _ _ h4]
    have hf : f1 = true := hflag
    rw [hf]
    simp [errorsIf, categoryName, categoryOutcome]
  | topTracks =>
    have h1 : f1 = true → phaseOk c.topArtists = true :=
      fun h => hok .topArtists (by decide) h
    have h3 : f3 = true → phaseOk c.savedTracks = true :=
      fun h => hok .savedTracks (by decide) h
    have h4 : f4 = true → phaseOk c.playlistTracks = true :=
      fun h => hok .playlistTracks (by decide) h
    rw [errorsIf_of_ok f1 _ _ h1, errorsIf_of_ok f3 _ _ h3, errorsIf_of_ok f4 _ _ h4]
    have hf : f2 = true := hflag
    rw [hf]
    simp [errorsIf, categoryName, categoryOutcome]
  | savedTracks =>
    have h1 : f1 = true → phaseOk c.topArtists = true :=
      fun h => hok .topArtists (by decide) h
    have h2 : f2 = true → phaseOk c.topTracks = true :=
      fun h => hok .topTracks (by decide) h
    have h4 : f4 = true → phaseOk c.playlistTracks = true :=
      fun h => hok .playlistTracks (by decide) h
    rw [errorsIf_of_ok f1 _ _ h1, errorsIf_of_ok f2 _ _ h2, errorsIf_of_ok f4 _ _ h4]
    have hf : f3 = true := hflag
    rw [hf]
    simp [errorsIf, categoryName, categoryOutcome]
  | playlistTracks =>
    have h1 : f1 = true → phaseOk c.topArtists = true :=
      fun h => hok .topArtists (by decide) h
    have h2 : f2 = true → phaseOk c.topTracks = true :=
      fun h => hok .topTracks (by decide) h
    have h3 : f3 = true → phaseOk c.savedTracks = true :=
      fun h => hok .savedTracks (by decide) h
    rw [errorsIf_of_ok f1 _ _ h1, errorsIf_of_ok f2 _ _ h2, errorsIf_of_ok f3 _ _ h3]
    have hf : f4 = true := hflag
    rw [hf]
    simp [errorsIf, categoryName, categoryOutcome]

/-- A successful category outcome whose upsert reports the given ids and
created count. -/
def okOutcome (ids : List Nat) (created : Nat) : SyncOutcome :=
  ⟨.ok ids, fun _ => .ok (ids, created)⟩

/-- A category whose fetch step raises. -/
def fetchFailOutcome : SyncOutcome :=
  ⟨.error (), fun _ => .ok ([], 0)⟩

def syncCollabsW : SyncCollabs :=
  { purgeArtists := .ok 0
    purgeTracks := .ok 0
    hasAccount := true
    topArtists := okOutcome [1, 2] 1
    topTracks := fetchFailOutcome
    savedTracks := okOutcome [3] 1
    playlistTracks := okOutcome [4, 5, 6] 2 }

/-- Closed witness for `sync_phase_isolation`: all four categories enabled,
top tracks failing at fetch; its one message appears and the other three
categories' counts are retained. -/
theorem sync_phase_isolation_witness :
    (spotify_sync syncCollabsW
        { sync_artist_top := true, sync_track_top := true,
          sync_track_saved := true, sync_track_playlist := true }).errors
      = outcomeErrors (categoryName .topTracks)
          (categoryOutcome syncCollabsW .topTracks)
    ∧ (outcomeErrors (categoryName .topTracks)
        (categoryOutcome syncCollabsW .topTracks)).length = 1
    ∧ outcomeCreated (categoryOutcome syncCollabsW .topTracks) = 0
    ∧ outcomeUpdated (categoryOutcome syncCollabsW .topTracks) = 0
    ∧ (spotify_sync syncCollabsW
        { sync_artist_top := true, sync_track_top := true,
          sync_track_saved := true, sync_track_playlist := true }).artist_created
      = contribIf true (outcomeCreated syncCollabsW.topArtists)
    ∧ (spotify_sync syncCollabsW
        { sync_artist_top := true, sync_track_top := true,
          sync_track_saved := true, sync_track_playlist := true }).artist_updated
      = contribIf true (outcomeUpdated syncCollabsW.topArtists)
    ∧ (spotify_sync syncCollabsW
        { sync_artist_top := true, sync_track_top := true,
          sync_track_saved := true, sync_track_playlist := true }).track_created
      = contribIf true (outcomeCreated syncCollabsW.topTracks)
        + contribIf true (outcomeCreated syncCollabsW.savedTracks)
        + contribIf true (outcomeCreated syncCollabsW.playlistTracks)
    ∧ (spotify_sync syncCollabsW
        { sync_artist_top := true, sync_track_top := true,
          sync_track_saved := true, sync_track_playlist := true }).track_updated
      = contribIf true (outcomeUpdated syncCollabsW.topTracks)
        + contribIf true (outcomeUpdated syncCollabsW.savedTracks)
        + contribIf true (outcomeUpdated syncCollabsW.playlistTracks) :=
  sync_phase_isolation syncCollabsW true true true true .topTracks rfl rfl rfl
    (fun j hj _ => by
      cases j with
      | topArtists => rfl
      | topTracks => exact absurd rfl hj
      | savedTracks => rfl
      | playlistTracks => rfl)

/-! ### Purge gating (C5) -/

theorem purge_stage_characterization (c : SyncCollabs) (config : SyncConfig) :
    purge_stage c config {}
      = { purge_artist :=
            if artistPurgeGate config && !(isError c.purgeArtists) then
              exceptCount c.purgeArtists
            else 0
          purge_track :=
            if trackPurgeGate config && !(isError c.purgeTracks) then
              exceptCount c.purgeTracks
            else 0
          errors :=
            (if artistPurgeGate config && isError c.purgeArtists then
              ["An error occurred while purging your artists."]
            else [])
            ++ (if trackPurgeGate config && isError c.purgeTracks then
              ["An error occurred while purging your tracks."]
            else []) } := by
  unfold purge_stage
  cases hA : artistPurgeGate config <;> cases hT : trackPurgeGate config <;>
    rcases hPA : c.purgeArtists with eA | nA <;>
    rcases hPT : c.purgeTracks with eT | nT <;>
    simp [purge_artists_phase, purge_tracks_phase, isError, exceptCount,
      hPA, hPT] <;>
    and_intros <;> rfl

/-- C5 (amended): if any purge flag is set and a gated purge phase fails, the
run returns right after the purge block: the report carries exactly one
purge-error message per failing purge phase (so exactly one when exactly one
fails, two when both fail), every sync count is zero, and the result does not
depend on the account or on any fetch/upsert collaborator — no session is
constructed and no sync phase runs. -/
theorem purge_gating (c : SyncCollabs) (config : SyncConfig)
    (hp : config.has_purge = true)
    (hfail : (artistPurgeGate config = true ∧ isError c.purgeArtists = true)
      ∨ (trackPurgeGate config = true ∧ isError c.purgeTracks = true)) :
    (spotify_sync c config).errors
      = (if artistPurgeGate config && isError c.purgeArtists then
          ["An error occurred while purging your artists."]
        else [])
        ++ (if trackPurgeGate config && isError c.purgeTracks then
          ["An error occurred while purging your tracks."]
        else [])
    ∧ (spotify_sync c config).artist_created = 0
    ∧ (spotify_sync c config).artist_updated = 0
    ∧ (spotify_sync c config).track_created = 0
    ∧ (spotify_sync c config).track_updated = 0
    ∧ ∀ c2 : SyncCollabs, c2.purgeArtists = c.purgeArtists →
        c2.purgeTracks = c.purgeTracks →
        spotify_sync c2 config = spotify_sync c config := by
  have herr : (purge_stage c config {}).has_errors = true := by
    rw [purge_stage_characterization]
    simp only [SyncReport.has_errors, gt_iff_lt, decide_eq_true_eq,
      List.length_append]
    rcases hfail with ⟨h1, h2⟩ | ⟨h1, h2⟩ <;> simp [h1, h2]
  have hrun : spotify_sync c config = purge_stage c config {} := by
    unfold spotify_sync
    simp [hp, herr]
  refine ⟨?_, ?_, ?_, ?_, ?_, ?_⟩
  · rw [hrun, purge_stage_characterization]
  · rw [hrun, purge_stage_characterization]
  · rw [hrun, purge_stage_characterization]
  · rw [hrun, purge_stage_characterization]
  · rw [hrun, purge_stage_characterization]
  · intro c2 h1 h2
    have hc : purge_stage c2 config {} = purge_stage c config {} := by
      rw [purge_stage_characterization, purge_stage_characterization, h1, h2]
    have herr2 : (purge_stage c2 config {}).has_errors = true := by
      rw [hc]
      exact herr
    rw [hrun]
    unfold spotify_sync
    simp [hp, herr2, hc, herr]

/-- C5 counterexample: `purge=True` with both purge callbacks failing yields
two purge-error messages, refuting "exactly one purge-error message" while a
purge phase did fail. -/
theorem purge_gating_counterexample :
    (spotify_sync
        { purgeArtists := .error (), purgeTracks := .error (),
          hasAccount := true, topArtists := okOutcome [] 0,
          topTracks := okOutcome [] 0, savedTracks := okOutcome [] 0,
          playlistTracks := okOutcome [] 0 }
        { purge := true }).errors
      = ["An error occurred while purging your artists.",
         "An error occurred while purging your tracks."]
    ∧ ¬ ((spotify_sync
        { purgeArtists := .error (), purgeTracks := .error (),
          hasAccount := true, topArtists := okOutcome [] 0,
          topTracks := okOutcome [] 0, savedTracks := okOutcome [] 0,
          playlistTracks := okOutcome [] 0 }
        { purge := true }).errors.length = 1) :=
  ⟨rfl, by decide⟩

/-- Closed witness for `purge_gating`: only `purge_track_top` set and the
track purge failing: exactly that one message, all sync counts zero. -/
theorem purge_gating_witness :
    (spotify_sync
        { purgeArtists := .ok 3, purgeTracks := .error (), hasAccount := true,
          topArtists := okOutcome [] 0, topTracks := okOutcome [] 0,
          savedTracks := okOutcome [] 0, playlistTracks := okOutcome [] 0 }
        { purge_track_top := true }).errors
      = (if artistPurgeGate { purge_track_top := true }
            && isError (Except.ok (ε := Unit) 3) then
          ["An error occurred while purging your artists."]
        else [])
        ++ (if trackPurgeGate { purge_track_top := true }
            && isError (Except.error (α := Nat) ()) then
          ["An error occurred while purging your tracks."]
        else [])
    ∧ (spotify_sync
        { purgeArtists := .ok 3, purgeTracks := .error (), hasAccount := true,
          topArtists := okOutcome [] 0, topTracks := okOutcome [] 0,
          savedTracks := okOutcome [] 0, playlistTracks := okOutcome [] 0 }
        { purge_track_top := true }).artist_created = 0
    ∧ (spotify_sync
        { purgeArtists := .ok 3, purgeTracks := .error (), hasAccount := true,
          topArtists := okOutcome [] 0, topTracks := okOutcome [] 0,
          savedTracks := okOutcome [] 0, playlistTracks := okOutcome [] 0 }
        { purge_track_top := true }).artist_updated = 0
    ∧ (spotify_sync
        { purgeArtists := .ok 3, purgeTracks := .error (), hasAccount := true,
          topArtists := okOutcome [] 0, topTracks := okOutcome [] 0,
          savedTracks := okOutcome [] 0, playlistTracks := okOutcome [] 0 }
        { purge_track_top := true }).track_created = 0
    ∧ (spotify_sync
        { purgeArtists := .ok 3, purgeTracks := .error (), hasAccount := true,
          topArtists := okOutcome [] 0, topTracks := okOutcome [] 0,
          savedTracks := okOutcome [] 0, playlistTracks := okOutcome [] 0 }
        { purge_track_top := true }).track_updated = 0
    ∧ ∀ c2 : SyncCollabs, c2.purgeArtists = Except.ok 3 →
        c2.purgeTracks = Except.error () →
        spotify_sync c2 { purge_track_top := true }
          = spotify_sync
              { purgeArtists := .ok 3, purgeTracks := .error (),
                hasAccount := true, topArtists := okOutcome [] 0,
                topTracks := okOutcome [] 0, savedTracks := okOutcome [] 0,
                playlistTracks := okOutcome [] 0 }
              { purge_track_top := true } :=
  purge_gating
    { purgeArtists := .ok 3, purgeTracks := .error (), hasAccount := true,
      topArtists := okOutcome [] 0, topTracks := okOutcome [] 0,
      savedTracks := okOutcome [] 0, playlistTracks := okOutcome [] 0 }
    { purge_track_top := true } (by decide) (Or.inr ⟨rfl, rfl⟩)

/-! ## Playlist-track fan-out (`get_playlist_tracks`, C6)

`get_playlist_tracks` fetches the playlist list, then fetches every
playlist's tracks (concurrently, bounded by a semaphore — the gather reads
the task results back in task-creation order), concatenates and finally
deduplicates by provider_id with
`list({track.provider_id: track for track in tracks}.values())` (dict
semantics: first-occurrence key order, last-written value).
`_fetch_playlist_tracks` catches `SpotifyPageValidationError` around one
playlist's pagination and returns the empty list for that playlist only.
The per-playlist pagination outcome is a function from playlist ids to
`Except`, `.error` being a page-validation failure. -/

/-- `_fetch_playlist_tracks`: the playlist's fetched tracks, or `[]` when
its pagination raises `SpotifyPageValidationError` (caught and logged). -/
def fetch_playlist_tracks (result : Except Unit (List Track)) : List Track :=
  match result with
  | .ok tracks => tracks
  | .error _ => []

/-- Python dict insertion keyed on provider_id: overwrite the value at an
existing key in place, else append the new key at the end. -/
def dictInsert (acc : List Track) (t : Track) : List Track :=
  if acc.any (fun x => x.provider_id == t.provider_id) then
    acc.map fun x => if x.provider_id == t.provider_id then t else x
  else
    acc ++ [t]

/-- `list({track.provider_id: track for track in tracks}.values())`. -/
def dedupByProviderId (tracks : List Track) : List Track :=
  tracks.foldl dictInsert []

/-- `get_playlist_tracks` given the fetched playlists and each playlist's
pagination outcome: gather all tracks in order, then deduplicate. -/
def get_playlist_tracks (playlists : List String)
    (results : String → Except Unit (List Track)) : List Track :=
  dedupByProviderId
    ((playlists.map fun p => fetch_playlist_tracks (results p)).flatten)

/-- C6: a validation failure of one playlist is absorbed: the run equals the
run in which that playlist successfully returned no tracks, so every other
playlist's tracks are unaffected, zero tracks are attributed to the failing
playlist, and no exception reaches the caller. -/
theorem playlist_failure_isolated (playlists : List String)
    (results : String → Except Unit (List Track)) (k : String)
    (hk : isError (results k) = true) :
    fetch_playlist_tracks (results k) = []
    ∧ get_playlist_tracks playlists results
        = get_playlist_tracks playlists
            (Function.update results k (Except.ok [])) := by
  have hkerr : ∃ e, results k = Except.error e := by
    cases hr : results k with
    | error e => exact ⟨e, rfl⟩
    | ok l => rw [hr] at hk; simp [isError] at hk
  obtain ⟨e, hke⟩ := hkerr
  constructor
  · rw [hke]
    rfl
  · unfold get_playlist_tracks
    have hfun : (fun p => fetch_playlist_tracks (results p))
        = fun p => fetch_playlist_tracks
            (Function.update results k (Except.ok []) p) := by
      funext p
      by_cases hp : p = k
      · subst hp
        rw [Function.update_same, hke]
        rfl
      · rw [Function.update_noteq hp]
    rw [hfun]

/-- A sample track for concrete playlist runs. -/
def trackT : Track := ⟨"t1", 4, "T", 3, [], false, none, false⟩

/-- The playlist outcomes used by the closed witness: "p1" fails validation,
every other playlist returns the one sample track. -/
def playlistResultsW : String → Except Unit (List Track) :=
  fun p => if p = "p1" then Except.error () else Except.ok [trackT]

/-- Closed witness for `playlist_failure_isolated`: two playlists, the first
failing validation; the run equals the run where "p1" returned no tracks. -/
theorem playlist_failure_isolated_witness :
    fetch_playlist_tracks (playlistResultsW "p1") = []
    ∧ get_playlist_tracks ["p1", "p2"] playlistResultsW
      = get_playlist_tracks ["p1", "p2"]
          (Function.update playlistResultsW "p1" (Except.ok [])) :=
  playlist_failure_isolated ["p1", "p2"] playlistResultsW "p1" (by decide)

/-! ## Double-checked-locking token refresh (`_refresh_token`, C2)

asyncio's single-threaded event loop interleaves K logical operations at
suspension points only; a schedule is the sequence of task indices advanced
one atomic segment at a time. Each task runs `_refresh_token`: unlocked flag
check, lock acquisition, locked re-check, `await refresh_access_token`
(counted), access-token comparison, `await spotify_account_repository.update`
when the token changed (counted), then in-memory update, flag set and lock
release (one synchronous segment). `differs` states whether the refreshed
access token differs from the stored one. -/

inductive RefreshPC
  | start
  | acquiring
  | locked
  | refreshing
  | gotToken
  | persisting
  | finishing
  | done
  deriving Repr, DecidableEq

structure RefreshState where
  pcs : List RefreshPC
  flag : Bool
  lockHeld : Bool
  refreshes : Nat
  persists : Nat
  deriving Repr, DecidableEq

/-- One atomic segment of `_refresh_token` for a task currently at `pc`. -/
def stepPC (differs : Bool) (s : RefreshState) (i : Nat) : RefreshPC → RefreshState
  | .start =>
    if s.flag then { s with pcs := s.pcs.set i .done }
    else { s with pcs := s.pcs.set i .acquiring }
  | .acquiring =>
    if s.lockHeld then s
    else { s with pcs := s.pcs.set i .locked, lockHeld := true }
  | .locked =>
    if s.flag then { s with pcs := s.pcs.set i .done, lockHeld := false }
    else { s with pcs := s.pcs.set i .refreshing }
  | .refreshing =>
    { s with pcs := s.pcs.set i .gotToken, refreshes := s.refreshes + 1 }
  | .gotToken =>
    if differs then { s with pcs := s.pcs.set i .persisting }
    else { s with pcs := s.pcs.set i .finishing }
  | .persisting =>
    { s with pcs := s.pcs.set i .finishing, persists := s.persists + 1 }
  | .finishing =>
    { s with pcs := s.pcs.set i .done, flag := true, lockHeld := false }
  | .done => s

/-- Advance task `i` by one atomic segment (no-op when blocked on the lock
or finished, or when `i` is not a task). -/
def stepTask (differs : Bool) (s : RefreshState) (i : Nat) : RefreshState :=
  match s.pcs[i]? with
  | none => s
  | some pc => stepPC differs s i pc

def runSchedule (differs : Bool) : RefreshState → List Nat → RefreshState
  | s, [] => s
  | s, i :: rest => runSchedule differs (stepTask differs s i) rest

/-- Fresh session with `K` concurrent operations about to need a token. -/
def initRefreshState (K : Nat) : RefreshState :=
  { pcs := List.replicate K .start, flag := false, lockHeld := false,
    refreshes := 0, persists := 0 }

/-- Inside the lock's critical section. -/
def inCS : RefreshPC → Bool
  | .locked | .refreshing | .gotToken | .persisting | .finishing => true
  | _ => false

/-- Past the locked re-check with the flag still unset. -/
def midOrPost : RefreshPC → Bool
  | .refreshing | .gotToken | .persisting | .finishing => true
  | _ => false

/-- The remote refresh call of this task has happened. -/
def postRefresh : RefreshPC → Bool
  | .gotToken | .persisting | .finishing => true
  | _ => false

/-- The persistence write of this task has happened. -/
def postPersist : RefreshPC → Bool
  | .finishing => true
  | _ => false

def isDone : RefreshPC → Bool
  | .done => true
  | _ => false

def isPersisting : RefreshPC → Bool
  | .persisting => true
  | _ => false

theorem countP_set_aux {γ : Type} (p : γ → Bool) :
    ∀ (l : List γ) (i : Nat) (x : γ), (h : i < l.length) →
      (l.set i x).countP p + (if p (l.get ⟨i, h⟩) then 1 else 0)
        = l.countP p + (if p x then 1 else 0) := by
  intro l
  induction l with
  | nil => intro i x h; simp at h
  | cons a l ih =>
    intro i x h
    cases i with
    | zero =>
      simp only [List.set_cons_zero, List.countP_cons, List.get]
      omega
    | succ i =>
      have hlen : i < l.length := by simpa using h
      have hrec := ih i x hlen
      simp only [List.set_cons_succ, List.countP_cons, List.get]
      omega

theorem countP_mono_pred {γ : Type} (p q : γ → Bool)
    (h : ∀ a, p a = true → q a = true) (l : List γ) :
    l.countP p ≤ l.countP q := by
  induction l with
  | nil => simp
  | cons a l ih =>
    simp only [List.countP_cons]
    cases hp : p a
    · cases hq : q a <;> simp [hp, hq] <;> omega
    · rw [h a hp]
      simp [hp]
      omega

theorem countP_pos_of_get {γ : Type} (p : γ → Bool) (l : List γ) (i : Nat)
    (h : i < l.length) (hp : p (l.get ⟨i, h⟩) = true) : 1 ≤ l.countP p :=
  List.countP_pos_iff.mpr ⟨_, List.get_mem l i h, hp⟩

/-- Inductive invariant of the double-checked-locking refresh: mutual
exclusion ties the lock to exactly one critical-section task; once the flag
is set no task is still doing refresh work; the refresh and persist counters
match the progress of the (unique) refresh performer; tasks only finish
after the flag is set; and without a token change no task ever persists. -/
structure RefreshInv (differs : Bool) (s : RefreshState) : Prop where
  cs_lock : s.pcs.countP inCS = (if s.lockHeld then 1 else 0)
  flag_quiet : s.flag = true → s.pcs.countP midOrPost = 0
  refreshes_eq : s.refreshes = (if s.flag then 1 else s.pcs.countP postRefresh)
  persists_eq : s.persists
    = (if differs then (if s.flag then 1 else s.pcs.countP postPersist) else 0)
  done_flag : s.flag = false → s.pcs.countP isDone = 0
  no_persist_same : differs = false → s.pcs.countP isPersisting = 0

theorem initRefreshState_inv (K : Nat) (differs : Bool) :
    RefreshInv differs (initRefreshState K) := by
  have hz : ∀ q : RefreshPC → Bool, q .start = false →
      (List.replicate K RefreshPC.start).countP q = 0 := by
    intro q hq
    rw [List.countP_eq_zero]
    intro a ha
    rw [(List.mem_replicate.mp ha).2, hq]
    simp
  refine ⟨?_, ?_, ?_, ?_, ?_, ?_⟩
  · show (List.replicate K RefreshPC.start).countP inCS
      = (if (false : Bool) then 1 else 0)
    rw [hz inCS rfl]
    simp
  · intro h
    cases h
  · show (0 : Nat) = (if (false : Bool) then 1
      else (List.replicate K RefreshPC.start).countP postRefresh)
    rw [hz postRefresh rfl]
    simp
  · show (0 : Nat) = (if differs then (if (false : Bool) then 1
      else (List.replicate K RefreshPC.start).countP postPersist) else 0)
    rw [hz postPersist rfl]
    cases differs <;> simp
  · intro _
    show (List.replicate K RefreshPC.start).countP isDone = 0
    exact hz isDone rfl
  · intro _
    show (List.replicate K RefreshPC.start).countP isPersisting = 0
    exact hz isPersisting rfl

theorem stepTask_inv (differs : Bool) (s : RefreshState) (i : Nat)
    (hinv : RefreshInv differs s) : RefreshInv differs (stepTask differs s i) := by
  obtain ⟨hcs, hquiet, href, hper, hdone, hnps⟩ := hinv
  unfold stepTask
  split
  · exact ⟨hcs, hquiet, href, hper, hdone, hnps⟩
  · rename_i pc hget
    obtain ⟨hlt, hgetE⟩ := List.getElem?_eq_some_iff.mp hget
    have hget2 : s.pcs.get ⟨i, hlt⟩ = pc := by
      rw [List.get_eq_getElem]
      exact hgetE
    have AUX : ∀ (x : RefreshPC) (q : RefreshPC → Bool) (cOld cNew : Nat),
        (if q pc then 1 else 0) = cOld → (if q x then 1 else 0) = cNew →
        (s.pcs.set i x).countP q + cOld = s.pcs.countP q + cNew := by
      intro x q cOld cNew hOld hNew
      have h := countP_set_aux q s.pcs i x hlt
      rw [hget2, hOld, hNew] at h
      exact h
    have POS : ∀ q : RefreshPC → Bool, q pc = true → 1 ≤ s.pcs.countP q :=
      fun q hq => countP_pos_of_get q s.pcs i hlt (by rw [hget2]; exact hq)
    cases pc with
    | start =>
      rw [stepPC]
      cases hfl : s.flag with
      | true =>
        rw [if_pos rfl]
        have h1 := AUX .done inCS 0 0 rfl rfl
        have h2 := AUX .done midOrPost 0 0 rfl rfl
        have h3 := AUX .done postRefresh 0 0 rfl rfl
        have h4 := AUX .done postPersist 0 0 rfl rfl
        have h6 := AUX .done isPersisting 0 0 rfl rfl
        refine ⟨?_, ?_, ?_, ?_, ?_, ?_⟩
        · show (s.pcs.set i .done).countP inCS = (if s.lockHeld then 1 else 0)
          omega
        · intro _
          show (s.pcs.set i .done).countP midOrPost = 0
          have h0 := hquiet hfl
          omega
        · show s.refreshes
            = (if (true : Bool) then 1 else (s.pcs.set i .done).countP postRefresh)
          rw [hfl] at href
          simp at href ⊢
          omega
        · show s.persists = (if differs then ((if (true : Bool) then 1
            else (s.pcs.set i .done).countP postPersist)) else 0)
          rw [hfl] at hper
          simp at hper ⊢
          omega
        · intro h
          simp at h
        · intro h
          have := hnps h
          show (s.pcs.set i .done).countP isPersisting = 0
          omega
      | false =>
        rw [if_neg (by simp)]
        have h1 := AUX .acquiring inCS 0 0 rfl rfl
        have h2 := AUX .acquiring midOrPost 0 0 rfl rfl
        have h3 := AUX .acquiring postRefresh 0 0 rfl rfl
        have h4 := AUX .acquiring postPersist 0 0 rfl rfl
        have h5 := AUX .acquiring isDone 0 0 rfl rfl
        have h6 := AUX .acquiring isPersisting 0 0 rfl rfl
        refine ⟨?_, ?_, ?_, ?_, ?_, ?_⟩
        · show (s.pcs.set i .acquiring).countP inCS = (if s.lockHeld then 1 else 0)
          omega
        · intro h
          simp at h
        · show s.refreshes
            = (if (false : Bool) then 1
              else (s.pcs.set i .acquiring).countP postRefresh)
          rw [hfl] at href
          simp at href ⊢
          omega
        · show s.persists = (if differs then ((if (false : Bool) then 1
            else (s.pcs.set i .acquiring).countP postPersist)) else 0)
          rw [hfl] at hper
          cases differs <;> simp at hper ⊢ <;> omega
        · intro _
          have := hdone hfl
          show (s.pcs.set i .acquiring).countP isDone = 0
          omega
        · intro h
          have := hnps h
          show (s.pcs.set i .acquiring).countP isPersisting = 0
          omega
    | acquiring =>
      rw [stepPC]
      cases hlk : s.lockHeld with
      | true =>
        rw [if_pos rfl]
        exact ⟨hcs, hquiet, href, hper, hdone, hnps⟩
      | false =>
        rw [if_neg (by simp)]
        have h1 := AUX .locked inCS 0 1 rfl rfl
        have h2 := AUX .locked midOrPost 0 0 rfl rfl
        have h3 := AUX .locked postRefresh 0 0 rfl rfl
        have h4 := AUX .locked postPersist 0 0 rfl rfl
        have h5 := AUX .locked isDone 0 0 rfl rfl
        have h6 := AUX .locked isPersisting 0 0 rfl rfl
        rw [hlk, if_neg (by simp)] at hcs
        refine ⟨?_, ?_, ?_, ?_, ?_, ?_⟩
        · show (s.pcs.set i .locked).countP inCS = (if (true : Bool) then 1 else 0)
          rw [if_pos rfl]
          omega
        · intro h
          have h0 : s.flag = true := h
          have := hquiet h0
          show (s.pcs.set i .locked).countP midOrPost = 0
          omega
        · show s.refreshes
            = (if s.flag then 1 else (s.pcs.set i .locked).countP postRefresh)
          cases hfl : s.flag <;> rw [hfl] at href <;> simp at href ⊢ <;> omega
        · show s.persists = (if differs then ((if s.flag then 1
            else (s.pcs.set i .locked).countP postPersist)) else 0)
          cases hfl : s.flag <;> rw [hfl] at hper <;>
            cases differs <;> simp at hper ⊢ <;> omega
        · intro h
          have h0 : s.flag = false := h
          have := hdone h0
          show (s.pcs.set i .locked).countP isDone = 0
          omega
        · intro h
          have := hnps h
          show (s.pcs.set i .locked).countP isPersisting = 0
          omega
    | locked =>
      rw [stepPC]
      cases hfl : s.flag with
      | true =>
        rw [if_pos rfl]
        have h1 := AUX .done inCS 1 0 rfl rfl
        have h2 := AUX .done midOrPost 0 0 rfl rfl
        have h3 := AUX .done postRefresh 0 0 rfl rfl
        have h4 := AUX .done postPersist 0 0 rfl rfl
        have h6 := AUX .done isPersisting 0 0 rfl rfl
        have hpos := POS inCS rfl
        have hlk : s.lockHeld = true := by
          cases hl2 : s.lockHeld
          · rw [hl2, if_neg (by simp)] at hcs
            omega
          · rfl
        rw [hlk, if_pos rfl] at hcs
        refine ⟨?_, ?_, ?_, ?_, ?_, ?_⟩
        · show (s.pcs.set i .done).countP inCS = (if (false : Bool) then 1 else 0)
          rw [if_neg (by simp)]
          omega
        · intro _
          have := hquiet hfl
          show (s.pcs.set i .done).countP midOrPost = 0
          omega
        · show s.refreshes
            = (if (true : Bool) then 1 else (s.pcs.set i .done).countP postRefresh)
          rw [hfl] at href
          simp at href ⊢
          omega
        · show s.persists = (if differs then ((if (true : Bool) then 1
            else (s.pcs.set i .done).countP postPersist)) else 0)
          rw [hfl] at hper
          simp at hper ⊢
          omega
        · intro h
          simp at h
        · intro h
          have := hnps h
          show (s.pcs.set i .done).countP isPersisting = 0
          omega
      | false =>
        rw [if_neg (by simp)]
        have h1 := AUX .refreshing inCS 1 1 rfl rfl
        have h2 := AUX .refreshing midOrPost 0 1 rfl rfl
        have h3 := AUX .refreshing postRefresh 0 0 rfl rfl
        have h4 := AUX .refreshing postPersist 0 0 rfl rfl
        have h5 := AUX .refreshing isDone 0 0 rfl rfl
        have h6 := AUX .refreshing isPersisting 0 0 rfl rfl
        refine ⟨?_, ?_, ?_, ?_, ?_, ?_⟩
        · show (s.pcs.set i .refreshing).countP inCS = (if s.lockHeld then 1 else 0)
          omega
        · intro h
          simp at h
        · show s.refreshes
            = (if (false : Bool) then 1
              else (s.pcs.set i .refreshing).countP postRefresh)
          rw [hfl] at href
          simp at href ⊢
          omega
        · show s.persists = (if differs then ((if (false : Bool) then 1
            else (s.pcs.set i .refreshing).countP postPersist)) else 0)
          rw [hfl] at hper
          cases differs <;> simp at hper ⊢ <;> omega
        · intro _
          have := hdone hfl
          show (s.pcs.set i .refreshing).countP isDone = 0
          omega
        · intro h
          have := hnps h
          show (s.pcs.set i .refreshing).countP isPersisting = 0
          omega
    | refreshing =>
      rw [stepPC]
      have hfl : s.flag = false := by
        cases hf2 : s.flag
        · rfl
        · have h0 := hquiet hf2
          have h1 := POS midOrPost rfl
          omega
      have h1 := AUX .gotToken inCS 1 1 rfl rfl
      have h2 := AUX .gotToken midOrPost 1 1 rfl rfl
      have h3 := AUX .gotToken postRefresh 0 1 rfl rfl
      have h4 := AUX .gotToken postPersist 0 0 rfl rfl
      have h5 := AUX .gotToken isDone 0 0 rfl rfl
      have h6 := AUX .gotToken isPersisting 0 0 rfl rfl
      refine ⟨?_, ?_, ?_, ?_, ?_, ?_⟩
      · show (s.pcs.set i .gotToken).countP inCS = (if s.lockHeld then 1 else 0)
        omega
      · intro h
        have h0 : s.flag = true := h
        rw [hfl] at h0
        cases h0
      · show s.refreshes + 1
          = (if s.flag then 1 else (s.pcs.set i .gotToken).countP postRefresh)
        rw [hfl] at href ⊢
        simp at href ⊢
        omega
      · show s.persists = (if differs then ((if s.flag then 1
          else (s.pcs.set i .gotToken).countP postPersist)) else 0)
        rw [hfl] at hper ⊢
        cases differs <;> simp at hper ⊢ <;> omega
      · intro h
        have h0 : s.flag = false := h
        have := hdone h0
        show (s.pcs.set i .gotToken).countP isDone = 0
        omega
      · intro h
        have := hnps h
        show (s.pcs.set i .gotToken).countP isPersisting = 0
        omega
    | gotToken =>
      rw [stepPC]
      have hfl : s.flag = false := by
        cases hf2 : s.flag
        · rfl
        · have h0 := hquiet hf2
          have h1 := POS midOrPost rfl
          omega
      split
      · rename_i hdf
        have h1 := AUX .persisting inCS 1 1 rfl rfl
        have h2 := AUX .persisting midOrPost 1 1 rfl rfl
        have h3 := AUX .persisting postRefresh 1 1 rfl rfl
        have h4 := AUX .persisting postPersist 0 0 rfl rfl
        have h5 := AUX .persisting isDone 0 0 rfl rfl
        refine ⟨?_, ?_, ?_, ?_, ?_, ?_⟩
        · show (s.pcs.set i .persisting).countP inCS = (if s.lockHeld then 1 else 0)
          omega
        · intro h
          have h0 : s.flag = true := h
          rw [hfl] at h0
          cases h0
        · show s.refreshes
            = (if s.flag then 1 else (s.pcs.set i .persisting).countP postRefresh)
          rw [hfl] at href ⊢
          simp at href ⊢
          omega
        · show s.persists = (if differs then ((if s.flag then 1
            else (s.pcs.set i .persisting).countP postPersist)) else 0)
          rw [hdf, hfl] at hper ⊢
          simp at hper ⊢
          omega
        · intro h
          have h0 : s.flag = false := h
          have := hdone h0
          show (s.pcs.set i .persisting).countP isDone = 0
          omega
        · intro h
          rw [h] at hdf
          cases hdf
      · rename_i hdf
        have hdf2 : differs = false := by simpa using hdf
        have h1 := AUX .finishing inCS 1 1 rfl rfl
        have h2 := AUX .finishing midOrPost 1 1 rfl rfl
        have h3 := AUX .finishing postRefresh 1 1 rfl rfl
        have h5 := AUX .finishing isDone 0 0 rfl rfl
        have h6 := AUX .finishing isPersisting 0 0 rfl rfl
        refine ⟨?_, ?_, ?_, ?_, ?_, ?_⟩
        · show (s.pcs.set i .finishing).countP inCS = (if s.lockHeld then 1 else 0)
          omega
        · intro h
          have h0 : s.flag = true := h
          rw [hfl] at h0
          cases h0
        · show s.refreshes
            = (if s.flag then 1 else (s.pcs.set i .finishing).countP postRefresh)
          rw [hfl] at href ⊢
          simp at href ⊢
          omega
        · show s.persists = (if differs then ((if s.flag then 1
            else (s.pcs.set i .finishing).countP postPersist)) else 0)
          rw [hdf2] at hper ⊢
          simp at hper ⊢
          omega
        · intro h
          have h0 : s.flag = false := h
          have := hdone h0
          show (s.pcs.set i .finishing).countP isDone = 0
          omega
        · intro h
          have := hnps h
          show (s.pcs.set i .finishing).countP isPersisting = 0
          omega
    | persisting =>
      rw [stepPC]
      have hfl : s.flag = false := by
        cases hf2 : s.flag
        · rfl
        · have h0 := hquiet hf2
          have h1 := POS midOrPost rfl
          omega
      have hdf : differs = true := by
        cases hd2 : differs
        · have h0 := hnps hd2
          have h1 := POS isPersisting rfl
          omega
        · rfl
      have h1 := AUX .finishing inCS 1 1 rfl rfl
      have h2 := AUX .finishing midOrPost 1 1 rfl rfl
      have h3 := AUX .finishing postRefresh 1 1 rfl rfl
      have h4 := AUX .finishing postPersist 0 1 rfl rfl
      have h5 := AUX .finishing isDone 0 0 rfl rfl
      have h6 := AUX .finishing isPersisting 1 0 rfl rfl
      refine ⟨?_, ?_, ?_, ?_, ?_, ?_⟩
      · show (s.pcs.set i .finishing).countP inCS = (if s.lockHeld then 1 else 0)
        omega
      · intro h
        have h0 : s.flag = true := h
        rw [hfl] at h0
        cases h0
      · show s.refreshes
          = (if s.flag then 1 else (s.pcs.set i .finishing).countP postRefresh)
        rw [hfl] at href ⊢
        simp at href ⊢
        omega
      · show s.persists + 1 = (if differs then ((if s.flag then 1
          else (s.pcs.set i .finishing).countP postPersist)) else 0)
        rw [hdf, hfl] at hper ⊢
        simp at hper ⊢
        omega
      · intro h
        have h0 : s.flag = false := h
        have := hdone h0
        show (s.pcs.set i .finishing).countP isDone = 0
        omega
      · intro h
        rw [h] at hdf
        cases hdf
    | finishing =>
      rw [stepPC]
      have hfl : s.flag = false := by
        cases hf2 : s.flag
        · rfl
        · have h0 := hquiet hf2
          have h1 := POS midOrPost rfl
          omega
      have hpos := POS inCS rfl
      have hlk : s.lockHeld = true := by
        cases hl2 : s.lockHeld
        · rw [hl2, if_neg (by simp)] at hcs
          omega
        · rfl
      rw [hlk, if_pos rfl] at hcs
      have hmono_mid := countP_mono_pred midOrPost inCS
        (by intro a h; cases a <;> simp_all [midOrPost, inCS]) s.pcs
      have hmono_ref := countP_mono_pred postRefresh inCS
        (by intro a h; cases a <;> simp_all [postRefresh, inCS]) s.pcs
      have hmono_per := countP_mono_pred postPersist inCS
        (by intro a h; cases a <;> simp_all [postPersist, inCS]) s.pcs
      have hpos_mid := POS midOrPost rfl
      have hpos_ref := POS postRefresh rfl
      have hpos_per := POS postPersist rfl
      have h1 := AUX .done inCS 1 0 rfl rfl
      have h2 := AUX .done midOrPost 1 0 rfl rfl
      have h3 := AUX .done postRefresh 1 0 rfl rfl
      have h4 := AUX .done postPersist 1 0 rfl rfl
      have h6 := AUX .done isPersisting 0 0 rfl rfl
      refine ⟨?_, ?_, ?_, ?_, ?_, ?_⟩
      · show (s.pcs.set i .done).countP inCS = (if (false : Bool) then 1 else 0)
        rw [if_neg (by simp)]
        omega
      · intro _
        show (s.pcs.set i .done).countP midOrPost = 0
        omega
      · show s.refreshes = (if (true : Bool) then 1
          else (s.pcs.set i .done).countP postRefresh)
        rw [hfl] at href
        simp at href ⊢
        omega
      · show s.persists = (if differs then ((if (true : Bool) then 1
          else (s.pcs.set i .done).countP postPersist)) else 0)
        rw [hfl] at hper
        cases differs <;> simp at hper ⊢ <;> omega
      · intro h
        simp at h
      · intro h
        have := hnps h
        show (s.pcs.set i .done).countP isPersisting = 0
        omega
    | done =>
      rw [stepPC]
      exact ⟨hcs, hquiet, href, hper, hdone, hnps⟩

theorem runSchedule_inv (differs : Bool) :
    ∀ (sched : List Nat) (s : RefreshState), RefreshInv differs s →
      RefreshInv differs (runSchedule differs s sched) := by
  intro sched
  induction sched with
  | nil => intro s h; exact h
  | cons i rest ih =>
    intro s h
    exact ih (stepTask differs s i) (stepTask_inv differs s i h)

theorem stepTask_flag_mono (differs : Bool) (s : RefreshState) (i : Nat)
    (h : s.flag = true) : (stepTask differs s i).flag = true := by
  unfold stepTask
  split
  · exact h
  · rename_i pc hget
    cases pc <;> rw [stepPC] <;>
      first
        | exact h
        | (split
           · exact h
           · exact h)
        | rfl

theorem runSchedule_flag_mono (differs : Bool) :
    ∀ (sched : List Nat) (s : RefreshState), s.flag = true →
      (runSchedule differs s sched).flag = true := by
  intro sched
  induction sched with
  | nil => intro s h; exact h
  | cons i rest ih =>
    intro s h
    exact ih (stepTask differs s i) (stepTask_flag_mono differs s i h)

/-- C2: for every number `K` of concurrent operations on a fresh session,
every cooperative interleaving `sched`, and whether or not the refreshed
access token differs from the stored one, the remote client's
`refresh_access_token` runs at most once and the persistence write at most
once (never when the token is unchanged); once any operation has completed
`_refresh_token`, the refresh has happened exactly once and the write exactly
once when the token changed and zero times otherwise; and the session's
refreshed flag, once set, never reverts under further steps. -/
theorem token_refresh_idempotent (K : Nat) (differs : Bool) (sched : List Nat) :
    (runSchedule differs (initRefreshState K) sched).refreshes ≤ 1
    ∧ (runSchedule differs (initRefreshState K) sched).persists ≤ 1
    ∧ (differs = false → (runSchedule differs (initRefreshState K) sched).persists = 0)
    ∧ ((∃ pc ∈ (runSchedule differs (initRefreshState K) sched).pcs,
          pc = RefreshPC.done) →
        (runSchedule differs (initRefreshState K) sched).refreshes = 1
        ∧ (runSchedule differs (initRefreshState K) sched).persists
            = (if differs then 1 else 0))
    ∧ (∀ (s : RefreshState) (more : List Nat), s.flag = true →
        (runSchedule differs s more).flag = true) := by
  obtain ⟨hcs, hquiet, href, hper, hdone, hnps⟩ :=
    runSchedule_inv differs sched (initRefreshState K)
      (initRefreshState_inv K differs)
  set t := runSchedule differs (initRefreshState K) sched with ht
  have hmono_ref := countP_mono_pred postRefresh inCS
    (by intro a h; cases a <;> simp_all [postRefresh, inCS]) t.pcs
  have hmono_per := countP_mono_pred postPersist inCS
    (by intro a h; cases a <;> simp_all [postPersist, inCS]) t.pcs
  have hcs_le : t.pcs.countP inCS ≤ 1 := by
    rw [hcs]
    cases t.lockHeld <;> simp
  refine ⟨?_, ?_, ?_, ?_, ?_⟩
  · rw [href]
    cases t.flag <;> simp <;> omega
  · rw [hper]
    cases differs <;> cases t.flag <;> simp <;> omega
  · intro hd
    rw [hper, hd]
    rfl
  · intro hex
    obtain ⟨pc, hmem, hpc⟩ := hex
    have hflag : t.flag = true := by
      cases hft : t.flag
      · have h0 := hdone hft
        have h1 : 1 ≤ t.pcs.countP isDone := by
          apply List.countP_pos_iff.mpr
          refine ⟨pc, hmem, ?_⟩
          rw [hpc]
          rfl
        omega
      · rfl
    rw [hflag] at href hper
    constructor
    · rw [href]
      rfl
    · rw [hper]
      cases differs <;> rfl
  · exact fun s more h => runSchedule_flag_mono differs more s h

/-- Closed witness for `token_refresh_idempotent`: two concurrent operations
with a changed token; the schedule lets task 0 do the whole refresh, then
task 1 observes the flag: one refresh, one persistence write. -/
theorem token_refresh_idempotent_witness :
    (runSchedule true (initRefreshState 2) [0, 0, 0, 0, 0, 0, 0, 1]).refreshes = 1
    ∧ (runSchedule true (initRefreshState 2) [0, 0, 0, 0, 0, 0, 0, 1]).persists
        = (if true then 1 else 0) := by
  have h := token_refresh_idempotent 2 true [0, 0, 0, 0, 0, 0, 0, 1]
  exact h.2.2.2.1 (by decide)

/-! ## Remote client (`SpotifyClientAdapter`, C8 and C10)

`make_user_api_call` is wrapped by tenacity
`retry(retry_if_exception(_is_retryable_error), stop_after_attempt(5),
reraise=True)`. The endpoint is modelled as a script of successive responses
consumed one per request; results carry (outcome, remaining script, number of
`refresh_access_token` invocations so far). -/

inductive EndpointResult
  | ok (body : Nat)
  | httpError (code : Nat) (retryAfter : Option Nat)
  | netError
  deriving Repr, DecidableEq

inductive CallError
  | httpStatus (code : Nat) (retryAfter : Option Nat)
  | netError
  | tryAgain
  deriving Repr, DecidableEq

/-- `_is_retryable_error`: `httpx.RequestError` retries; `HTTPStatusError`
retries only on 429 or any 5xx; the manual `TryAgain` signal retries. -/
def is_retryable_error : CallError → Bool
  | .netError => true
  | .httpStatus code _ => code == 429 || decide (500 ≤ code)
  | .tryAgain => true

/-- One execution of the `make_user_api_call` body: refresh proactively when
the passed token is expired (within the buffer) or refresh is enforced; then
call the endpoint. A 401 without enforced refresh performs one full
recursive call (`recur`) with refresh enforced; a 429 carrying a Retry-After
header sleeps and raises `TryAgain`; other error statuses and network errors
raise. An exhausted response script is a network error. -/
def attemptBody
    (recur : List EndpointResult → Nat →
      Except CallError Nat × List EndpointResult × Nat)
    (expired enforce : Bool) (rs : List EndpointResult) (refreshes : Nat) :
    Except CallError Nat × List EndpointResult × Nat :=
  let refreshes := if expired || enforce then refreshes + 1 else refreshes
  match rs with
  | [] => (.error .netError, [], refreshes)
  | r :: rest =>
    match r with
    | .ok body => (.ok body, rest, refreshes)
    | .netError => (.error .netError, rest, refreshes)
    | .httpError code retryAfter =>
      if code == 401 && !enforce then
        recur rest refreshes
      else if code == 429 && retryAfter.isSome then
        (.error .tryAgain, rest, refreshes)
      else
        (.error (.httpStatus code retryAfter), rest, refreshes)

/-- tenacity with `stop_after_attempt` and `reraise=True`: rerun the body
on a retryable exception while attempts remain, reraise the final exception
otherwise. -/
def tenacityLoop
    (attempt : List EndpointResult → Nat →
      Except CallError Nat × List EndpointResult × Nat) :
    Nat → List EndpointResult → Nat →
      Except CallError Nat × List EndpointResult × Nat
  | 0, rs, refreshes => attempt rs refreshes
  | 1, rs, refreshes => attempt rs refreshes
  | n + 2, rs, refreshes =>
    match attempt rs refreshes with
    | (.ok b, rs2, rf2) => (.ok b, rs2, rf2)
    | (.error e, rs2, rf2) =>
      if is_retryable_error e then tenacityLoop attempt (n + 1) rs2 rf2
      else (.error e, rs2, rf2)

/-- `make_user_api_call`: the tenacity-decorated body; the 401 recursion
re-enters the decorated call with `enforce_refresh_token=True` and the
just-validated (hence unexpired) token. `fuel` bounds the recursion depth
(it is at most 2 in any real execution since the recursive call enforces). -/
def make_user_api_call :
    Nat → Bool → Bool → List EndpointResult → Nat →
      Except CallError Nat × List EndpointResult × Nat
  | 0, _, _, rs, refreshes => (.error .netError, rs, refreshes)
  | fuel + 1, expired, enforce, rs, refreshes =>
    tenacityLoop (attemptBody (make_user_api_call fuel false true) expired enforce)
      5 rs refreshes

/-- C8: a 401 from the endpoint triggers exactly one extra token refresh and
exactly one retry of the same call with refresh enforced (first conjunct:
the retry succeeds and its body is returned after exactly two endpoint
calls and one refresh); a second 401 propagates to the caller as a fatal
`HTTPStatusError` with no further endpoint call or backoff retry (second
conjunct: the script's tail is untouched); and 401 is not a retryable error
for the generic backoff policy (third conjunct). -/
theorem unauthorized_retried_once (b : Nat) (tail : List EndpointResult)
    (fuel : Nat) (hf : 2 ≤ fuel) :
    make_user_api_call fuel false false
        (.httpError 401 none :: .ok b :: tail) 0
      = (.ok b, tail, 1)
    ∧ make_user_api_call fuel false false
        (.httpError 401 none :: .httpError 401 none :: tail) 0
      = (.error (.httpStatus 401 none), tail, 1)
    ∧ is_retryable_error (.httpStatus 401 none) = false := by
  obtain ⟨f, rfl⟩ : ∃ f, fuel = f + 2 := ⟨fuel - 2, by omega⟩
  refine ⟨rfl, rfl, rfl⟩

/-- Closed witness for `unauthorized_retried_once` at fuel 2 and a one-item
tail. -/
theorem unauthorized_retried_once_witness :
    make_user_api_call 2 false false
        (.httpError 401 none :: .ok 7 :: [.ok 9]) 0
      = (.ok 7, [.ok 9], 1)
    ∧ make_user_api_call 2 false false
        (.httpError 401 none :: .httpError 401 none :: [.ok 9]) 0
      = (.error (.httpStatus 401 none), [.ok 9], 1)
    ∧ is_retryable_error (.httpStatus 401 none) = false :=
  unauthorized_retried_once 7 [.ok 9] 2 (by decide)

/-! ### Token refresh response handling (C10) -/

/-- The provider's JSON body for a refresh grant; Spotify does not always
return a new refresh_token. -/
structure SpotifyTokenResponse where
  token_type : String
  access_token : String
  refresh_token : Option String
  expires_in : Nat
  deriving Repr, DecidableEq

/-- `SpotifyTokenState` with the `expires_at` computed by the validator from
`expires_in` and the current time. -/
structure SpotifyTokenState where
  token_type : String
  access_token : String
  refresh_token : String
  expires_at : Nat
  deriving Repr, DecidableEq

/-- `refresh_access_token`: posts the refresh grant and validates the
response; when the response has no refresh_token field, the argument refresh
token is inserted before validation. `now` is the clock at validation. -/
def refresh_access_token (now : Nat) (refreshToken : String)
    (resp : SpotifyTokenResponse) : SpotifyTokenState :=
  let tokenRefresh :=
    match resp.refresh_token with
    | some r => r
    | none => refreshToken
  { token_type := resp.token_type
    access_token := resp.access_token
    refresh_token := tokenRefresh
    expires_at := now + resp.expires_in }

/-- C10: when the provider's token response contains no refresh_token, the
returned state keeps the refresh token that was used for the request, so
later refreshes stay possible. -/
theorem refresh_token_preserved (now : Nat) (rt : String)
    (resp : SpotifyTokenResponse) (h : resp.refresh_token = none) :
    (refresh_access_token now rt resp).refresh_token = rt := by
  unfold refresh_access_token
  rw [h]

/-- Closed witness for `refresh_token_preserved`. -/
theorem refresh_token_preserved_witness :
    (refresh_access_token 100 "old-refresh"
        ⟨"Bearer", "new-access", none, 3600⟩).refresh_token = "old-refresh" :=
  refresh_token_preserved 100 "old-refresh" ⟨"Bearer", "new-access", none, 3600⟩ rfl

/-! ### `_execute_request` token persistence (C7)

The session's `_execute_request` runs `_refresh_token()` when the
once-per-session flag is unset, then calls the client with
`response_data, _ = await self.spotify_client.make_user_api_call(...)`:
the possibly-new token state returned by the client is bound to `_` and
dropped — no comparison against the stored access token and no repository
update happen on it. -/

/-- Session token bookkeeping: the once-per-session refresh flag, the
account's stored access token (in-memory and persisted move together), and
the number of `spotify_account_repository.update` calls. -/
structure SessionTokenState where
  isTokenRefreshed : Bool
  storedAccessToken : String
  updateWrites : Nat
  deriving Repr, DecidableEq

/-- Effect of `_refresh_token` once inside the lock (sequential path):
persist and update memory when the refreshed access token differs, then set
the flag. -/
def refresh_token_effect (s : SessionTokenState)
    (refreshed : SpotifyTokenState) : SessionTokenState :=
  if s.isTokenRefreshed then s
  else if refreshed.access_token ≠ s.storedAccessToken then
    { isTokenRefreshed := true
      storedAccessToken := refreshed.access_token
      updateWrites := s.updateWrites + 1 }
  else { s with isTokenRefreshed := true }

/-- `_execute_request`: ensure the one-shot refresh has happened, delegate to
the client, and return the response body; the client's returned token state
is discarded. -/
def execute_request (s : SessionTokenState) (refreshed : SpotifyTokenState)
    (responseBody : Nat) (returnedToken : SpotifyTokenState) :
    Nat × SessionTokenState :=
  let s2 := if s.isTokenRefreshed then s else refresh_token_effect s refreshed
  (responseBody, s2)

/-- C7 is false of the code: on a session whose one-shot refresh has already
happened, `_execute_request` performs no persistence write and leaves the
stored token unchanged even when the client returns a token state whose
access_token differs from the stored one — the returned token is discarded
(`response_data, _ = ...`), contradicting the claim (and the intent of the
unit tests `test__execute_request__persists_new_token` /
`test__execute_request__no_persistence_if_unchanged`). -/
theorem execute_request_drops_returned_token (s : SessionTokenState)
    (refreshed returnedToken : SpotifyTokenState) (body : Nat)
    (hs : s.isTokenRefreshed = true)
    (hdiff : returnedToken.access_token ≠ s.storedAccessToken) :
    (execute_request s refreshed body returnedToken).2.updateWrites
        = s.updateWrites
    ∧ (execute_request s refreshed body returnedToken).2.storedAccessToken
        = s.storedAccessToken
    ∧ (execute_request s refreshed body returnedToken).2.storedAccessToken
        ≠ returnedToken.access_token := by
  unfold execute_request
  rw [if_pos hs]
  exact ⟨rfl, rfl, fun h => hdiff h.symm⟩

/-- Closed witness for `execute_request_drops_returned_token`: the session
stores "old", the client returns "new", and nothing is persisted. -/
theorem execute_request_drops_returned_token_witness :
    (execute_request ⟨true, "old", 0⟩ ⟨"Bearer", "old", "r", 50⟩ 1
        ⟨"Bearer", "new", "r", 99⟩).2.updateWrites
      = (⟨true, "old", 0⟩ : SessionTokenState).updateWrites
    ∧ (execute_request ⟨true, "old", 0⟩ ⟨"Bearer", "old", "r", 50⟩ 1
        ⟨"Bearer", "new", "r", 99⟩).2.storedAccessToken
      = (⟨true, "old", 0⟩ : SessionTokenState).storedAccessToken
    ∧ (execute_request ⟨true, "old", 0⟩ ⟨"Bearer", "old", "r", 50⟩ 1
        ⟨"Bearer", "new", "r", 99⟩).2.storedAccessToken
      ≠ (⟨"Bearer", "new", "r", 99⟩ : SpotifyTokenState).access_token :=
  execute_request_drops_returned_token ⟨true, "old", 0⟩
    ⟨"Bearer", "old", "r", 50⟩ ⟨"Bearer", "new", "r", 99⟩ 1 rfl (by decide)

end Spotifagent
